import Mathlib

/-!
Shallow embedding of the incident-aggregation pipeline of QueryLinkerAssistant
(src/server/connectors.ts, src/server/storage.ts, src/server/routes.ts).

Conventions of the embedding:
* JavaScript Date values are modelled by `DateV`: a date parsed from a vendor
  string (new Date(s)) or a clock reading (new Date() at model time t).  Every
  operation that calls new Date() takes the current model time as an explicit
  Nat parameter.
* Async functions that can throw are modelled with Except String; the caught
  error message is the String.
* The in-memory store (class MemoryStorage, the instance actually bound to the
  exported storage value in storage.ts) is modelled by pure functions over
  StorageState; the Postgres-backed DatabaseStorage methods cited by the spec
  are modelled over the same row types in the Db namespace.
* Opaque metadata JSON blobs carried by the rows are not modelled: no code in
  the pipeline reads them back.
-/

namespace QueryLinker

/-- A JavaScript Date: either parsed from a vendor ISO string or read from the
clock at model time t. -/
inductive DateV
  | parsed (iso : String)
  | clock (t : Nat)
deriving DecidableEq, Repr

/-- A row of the data_sources table, fields used by the sync pipeline. -/
structure DataSource where
  id : Nat
  name : String
  type : String
  baseUrl : String
  isActive : Bool
  lastSyncAt : Option DateV
  lastError : Option String
  retryCount : Nat
  updatedAt : Option DateV
deriving DecidableEq, Repr

/-- The InsertIncident shape produced by the connectors (connectors.ts): the
fields each connector's fetchIncidents sets on the record it returns. -/
structure InsertIncident where
  externalId : String
  dataSourceId : Nat
  systemName : String
  title : String
  description : String
  status : String
  severity : String
  impact : String
  startedAt : DateV
  resolvedAt : Option DateV
  updatedAt : DateV
  externalUrl : Option String
  affectedServices : List String
  tags : List String
deriving DecidableEq, Repr

/-- A stored Incident row: the insert fields plus the row id, the syncedAt
stamp and the isActive flag.  MemoryStorage.createIncident builds the row by
spreading the insert and adding id and syncedAt, so isActive is undefined
(none) on rows it creates; rows in an arbitrary store may carry any value. -/
structure Incident where
  id : Nat
  externalId : String
  dataSourceId : Nat
  systemName : String
  title : String
  description : String
  status : String
  severity : String
  impact : String
  startedAt : DateV
  resolvedAt : Option DateV
  updatedAt : DateV
  externalUrl : Option String
  affectedServices : List String
  tags : List String
  syncedAt : DateV
  isActive : Option Bool
deriving DecidableEq, Repr

/-- The InsertServiceComponent shape produced by the connectors. -/
structure InsertServiceComponent where
  dataSourceId : Nat
  externalId : String
  name : String
  description : Option String
  status : String
  group : Option String
  position : Option Nat
  showUptime : Option Bool
deriving DecidableEq, Repr

/-- A stored ServiceComponent row. -/
structure ServiceComponent where
  id : Nat
  dataSourceId : Nat
  externalId : String
  name : String
  description : Option String
  status : String
  group : Option String
  position : Option Nat
  showUptime : Option Bool
  syncedAt : DateV
  updatedAt : Option DateV
deriving DecidableEq, Repr

/-- The tables of MemoryStorage touched by the sync pipeline, plus its shared
idCounter. -/
structure StorageState where
  dataSources : List DataSource
  incidents : List Incident
  serviceComponents : List ServiceComponent
  idCounter : Nat
deriving DecidableEq, Repr

/-- Replace the first element satisfying p by its image under f; models the
JavaScript pattern of Array.prototype.find followed by in-place mutation. -/
def updateFirst (p : α → Bool) (f : α → α) : List α → List α
  | [] => []
  | x :: xs => if p x then f x :: xs else x :: updateFirst p f xs

/-- The row built by MemoryStorage.createIncident at model time t: the spread
of the insert plus a fresh id and syncedAt; isActive is left undefined. -/
def mkIncidentRow (rowId : Nat) (t : Nat) (inc : InsertIncident) : Incident :=
  { id := rowId
    externalId := inc.externalId
    dataSourceId := inc.dataSourceId
    systemName := inc.systemName
    title := inc.title
    description := inc.description
    status := inc.status
    severity := inc.severity
    impact := inc.impact
    startedAt := inc.startedAt
    resolvedAt := inc.resolvedAt
    updatedAt := inc.updatedAt
    externalUrl := inc.externalUrl
    affectedServices := inc.affectedServices
    tags := inc.tags
    syncedAt := DateV.clock t
    isActive := none }

/-- The merge done by MemoryStorage.updateIncident at model time t: spread the
existing row, spread the insert over it, then stamp updatedAt with the current
time.  id, syncedAt and isActive are not insert fields, so they survive. -/
def applyIncidentInsert (t : Nat) (row : Incident) (inc : InsertIncident) : Incident :=
  { row with
    externalId := inc.externalId
    dataSourceId := inc.dataSourceId
    systemName := inc.systemName
    title := inc.title
    description := inc.description
    status := inc.status
    severity := inc.severity
    impact := inc.impact
    startedAt := inc.startedAt
    resolvedAt := inc.resolvedAt
    updatedAt := DateV.clock t
    externalUrl := inc.externalUrl
    affectedServices := inc.affectedServices
    tags := inc.tags }

/-- The row built by MemoryStorage.upsertServiceComponent on the insert path. -/
def mkComponentRow (rowId : Nat) (t : Nat) (c : InsertServiceComponent) : ServiceComponent :=
  { id := rowId
    dataSourceId := c.dataSourceId
    externalId := c.externalId
    name := c.name
    description := c.description
    status := c.status
    group := c.group
    position := c.position
    showUptime := c.showUptime
    syncedAt := DateV.clock t
    updatedAt := none }

/-- The Object.assign done by MemoryStorage.upsertServiceComponent on the
update path: the insert fields overwrite the row and both stamps are reset. -/
def applyComponentInsert (t : Nat) (row : ServiceComponent) (c : InsertServiceComponent) : ServiceComponent :=
  { row with
    dataSourceId := c.dataSourceId
    externalId := c.externalId
    name := c.name
    description := c.description
    status := c.status
    group := c.group
    position := c.position
    showUptime := c.showUptime
    syncedAt := DateV.clock t
    updatedAt := some (DateV.clock t) }

namespace MemoryStorage

/-- MemoryStorage.updateDataSourceSyncTime: stamp lastSyncAt and updatedAt on
the first data source with the given id; on an error record the message and
bump retryCount, otherwise clear lastError and reset retryCount. -/
def updateDataSourceSyncTime (id : Nat) (error : Option String) (t : Nat)
    (st : StorageState) : StorageState :=
  { st with dataSources :=
      (updateFirst (fun d => d.id == id)
        (fun d =>
          match error with
          | some e =>
              { d with lastSyncAt := some (DateV.clock t), updatedAt := some (DateV.clock t),
                       lastError := some e, retryCount := d.retryCount + 1 }
          | none =>
              { d with lastSyncAt := some (DateV.clock t), updatedAt := some (DateV.clock t),
                       lastError := none, retryCount := 0 })
        st.dataSources) }

/-- MemoryStorage.upsertIncidentByExternalId: find the row with the composite
key (externalId, dataSourceId); if present, updateIncident on its row id,
otherwise createIncident. -/
def upsertIncidentByExternalId (externalId : String) (dataSourceId : Nat)
    (inc : InsertIncident) (t : Nat) (st : StorageState) : StorageState :=
  match st.incidents.find? (fun i => i.externalId == externalId && i.dataSourceId == dataSourceId) with
  | some existing =>
      { st with incidents :=
          (updateFirst (fun i => i.id == existing.id) (fun i => applyIncidentInsert t i inc) st.incidents) }
  | none =>
      { st with incidents := st.incidents ++ [mkIncidentRow st.idCounter t inc],
                idCounter := st.idCounter + 1 }

/-- MemoryStorage.upsertServiceComponent: find the row with the composite key
taken from the insert itself; Object.assign over it if present, else push a
new row. -/
def upsertServiceComponent (c : InsertServiceComponent) (t : Nat)
    (st : StorageState) : StorageState :=
  match st.serviceComponents.find? (fun x => x.externalId == c.externalId && x.dataSourceId == c.dataSourceId) with
  | some _ =>
      { st with serviceComponents :=
          (updateFirst (fun x => x.externalId == c.externalId && x.dataSourceId == c.dataSourceId)
            (fun x => applyComponentInsert t x c) st.serviceComponents) }
  | none =>
      { st with serviceComponents := st.serviceComponents ++ [mkComponentRow st.idCounter t c],
                idCounter := st.idCounter + 1 }

/-- MemoryStorage.getActiveIncidents: rows whose isActive flag is truthy and
whose status differs from resolved. -/
def getActiveIncidents (st : StorageState) : List Incident :=
  st.incidents.filter (fun i => i.isActive == some true && i.status != "resolved")

/-- MemoryStorage.getIncidentsByStatus. -/
def getIncidentsByStatus (status : String) (st : StorageState) : List Incident :=
  st.incidents.filter (fun i => i.status == status && i.isActive == some true)

/-- MemoryStorage.getIncidentsBySeverity. -/
def getIncidentsBySeverity (severity : String) (st : StorageState) : List Incident :=
  st.incidents.filter (fun i => i.severity == severity && i.isActive == some true)

end MemoryStorage

namespace Db

/-- DatabaseStorage.updateDataSourceSyncTime: one UPDATE with a WHERE clause
on the id; lastSyncAt and updatedAt are stamped unconditionally, retryCount is
retryCount + 1 when an error message is supplied and 0 otherwise, lastError is
the message or null. -/
def updateDataSourceSyncTime (id : Nat) (error : Option String) (t : Nat)
    (st : StorageState) : StorageState :=
  { st with dataSources :=
      st.dataSources.map (fun d =>
        if d.id == id then
          { d with lastSyncAt := some (DateV.clock t), updatedAt := some (DateV.clock t),
                   lastError := error,
                   retryCount := match error with | some _ => d.retryCount + 1 | none => 0 }
        else d) }

/-- DatabaseStorage.upsertIncidentByExternalId: INSERT .. ON CONFLICT on the
unique index (externalId, dataSourceId) DO UPDATE SET the insert fields plus
fresh updatedAt and syncedAt stamps.  The conflict key is the one carried by
the inserted values themselves.  Column defaults of the insert path live in
the shared schema module, which is not part of the sources; only the
generated id and the syncedAt default are modelled. -/
def upsertIncidentByExternalId (inc : InsertIncident) (t : Nat)
    (st : StorageState) : StorageState :=
  match st.incidents.find? (fun i => i.externalId == inc.externalId && i.dataSourceId == inc.dataSourceId) with
  | some _ =>
      { st with incidents :=
          (updateFirst (fun i => i.externalId == inc.externalId && i.dataSourceId == inc.dataSourceId)
            (fun i => { applyIncidentInsert t i inc with syncedAt := DateV.clock t }) st.incidents) }
  | none =>
      { st with incidents := st.incidents ++ [mkIncidentRow st.idCounter t inc],
                idCounter := st.idCounter + 1 }

/-- DatabaseStorage.upsertServiceComponent: same ON CONFLICT shape on the
component unique index, restamping updatedAt and syncedAt. -/
def upsertServiceComponent (c : InsertServiceComponent) (t : Nat)
    (st : StorageState) : StorageState :=
  match st.serviceComponents.find? (fun x => x.externalId == c.externalId && x.dataSourceId == c.dataSourceId) with
  | some _ =>
      { st with serviceComponents :=
          (updateFirst (fun x => x.externalId == c.externalId && x.dataSourceId == c.dataSourceId)
            (fun x => applyComponentInsert t x c) st.serviceComponents) }
  | none =>
      { st with serviceComponents := st.serviceComponents ++ [mkComponentRow st.idCounter t c],
                idCounter := st.idCounter + 1 }

/-- DatabaseStorage.getActiveIncidents: WHERE isActive = true AND
status != resolved. -/
def getActiveIncidents (st : StorageState) : List Incident :=
  st.incidents.filter (fun i => i.isActive == some true && i.status != "resolved")

/-- DatabaseStorage.getIncidentsByStatus: WHERE status = s AND isActive = true. -/
def getIncidentsByStatus (status : String) (st : StorageState) : List Incident :=
  st.incidents.filter (fun i => i.status == status && i.isActive == some true)

/-- DatabaseStorage.getIncidentsBySeverity. -/
def getIncidentsBySeverity (severity : String) (st : StorageState) : List Incident :=
  st.incidents.filter (fun i => i.severity == severity && i.isActive == some true)

end Db

/-! ## Connectors (src/server/connectors.ts) -/

/-- The canonical status vocabulary of the spec. -/
def canonicalStatuses : List String :=
  ["investigating", "identified", "monitoring", "resolved"]

/-- The canonical severity vocabulary of the spec. -/
def canonicalSeverities : List String :=
  ["critical", "high", "medium", "low"]

/-- One entry of a statuspage-shaped incident_updates array. -/
structure RawIncidentUpdate where
  body : String
deriving DecidableEq, Repr

/-- A component reference inside a raw incident. -/
structure RawComponentRef where
  name : String
deriving DecidableEq, Repr

/-- A raw incident object of a statuspage-shaped incidents.json payload (used
by both the StatusPage and the GitHub Status connector). -/
structure RawIncident where
  id : String
  name : String
  status : String
  impact : String
  created_at : String
  resolved_at : Option String
  updated_at : String
  shortlink : Option String
  components : Option (List RawComponentRef)
  incident_updates : List RawIncidentUpdate
deriving DecidableEq, Repr

/-- A raw component object of a statuspage-shaped components.json payload.
The JSON object is untyped; the StatusPage connector reads group while the
GitHub connector reads group_id, so both keys are carried here. -/
structure RawComponent where
  id : String
  name : String
  description : Option String
  status : String
  group : Option String
  group_id : Option String
  position : Option Nat
  showcase : Option Bool
deriving DecidableEq, Repr

/-- A raw issue of the Azure status.json payload. -/
structure RawIssue where
  id : String
  title : String
  summary : String
  status : String
  severity : String
  startTime : String
  endTime : Option String
  lastUpdateTime : String
  link : Option String
  services : Option (List String)
deriving DecidableEq, Repr

/-- A raw service of the Azure status.json payload. -/
structure RawService where
  id : Option String
  name : String
  displayName : Option String
  health : Option String
deriving DecidableEq, Repr

/-- The Azure status.json payload carries issues and services side by side;
both keys are optional. -/
structure AzureStatusPayload where
  issues : Option (List RawIssue)
  services : Option (List RawService)
deriving DecidableEq, Repr

namespace StatusPageConnector

/-- StatusPageConnector.mapStatus: the statusMap record lookup with the raw
status itself as the fallback. -/
def mapStatus (status : String) : String :=
  if status = "investigating" then "investigating"
  else if status = "identified" then "identified"
  else if status = "monitoring" then "monitoring"
  else if status = "resolved" then "resolved"
  else if status = "postmortem" then "resolved"
  else status

/-- StatusPageConnector.mapSeverity: the severityMap record lookup with
medium as the fallback. -/
def mapSeverity (impact : String) : String :=
  if impact = "critical" then "critical"
  else if impact = "major" then "high"
  else if impact = "minor" then "medium"
  else if impact = "none" then "low"
  else "medium"

/-- The record StatusPageConnector.fetchIncidents builds for one raw
incident of the vendor payload. -/
def incidentToInsert (dataSourceId : Nat) (incident : RawIncident) : InsertIncident :=
  { externalId := incident.id
    dataSourceId := dataSourceId
    systemName := if incident.name = "" then "StatusPage Incident" else incident.name
    title := incident.name
    description := match incident.incident_updates.head? with
      | some u => u.body
      | none => ""
    status := mapStatus incident.status
    severity := mapSeverity incident.impact
    impact := incident.impact
    startedAt := DateV.parsed incident.created_at
    resolvedAt := incident.resolved_at.map DateV.parsed
    updatedAt := DateV.parsed incident.updated_at
    externalUrl := incident.shortlink
    affectedServices := ((incident.components.map (fun l => l.map RawComponentRef.name)).getD [])
    tags := [incident.impact, incident.status] }

/-- The record StatusPageConnector.fetchComponents builds for one raw
component. -/
def componentToInsert (dataSourceId : Nat) (component : RawComponent) : InsertServiceComponent :=
  { dataSourceId := dataSourceId
    externalId := component.id
    name := component.name
    description := component.description
    status := component.status
    group := component.group
    position := component.position
    showUptime := component.showcase }

end StatusPageConnector

namespace GitHubStatusConnector

/-- GitHubStatusConnector.mapStatus: identity table on the four canonical
names with the raw status itself as the fallback. -/
def mapStatus (status : String) : String :=
  if status = "investigating" then "investigating"
  else if status = "identified" then "identified"
  else if status = "monitoring" then "monitoring"
  else if status = "resolved" then "resolved"
  else status

/-- GitHubStatusConnector.mapSeverity. -/
def mapSeverity (impact : String) : String :=
  if impact = "critical" then "critical"
  else if impact = "major" then "high"
  else if impact = "minor" then "medium"
  else if impact = "none" then "low"
  else "medium"

/-- The record GitHubStatusConnector.fetchIncidents builds for one raw
incident. -/
def incidentToInsert (dataSourceId : Nat) (incident : RawIncident) : InsertIncident :=
  { externalId := incident.id
    dataSourceId := dataSourceId
    systemName := "GitHub"
    title := incident.name
    description := match incident.incident_updates.head? with
      | some u => u.body
      | none => ""
    status := mapStatus incident.status
    severity := mapSeverity incident.impact
    impact := incident.impact
    startedAt := DateV.parsed incident.created_at
    resolvedAt := incident.resolved_at.map DateV.parsed
    updatedAt := DateV.parsed incident.updated_at
    externalUrl := incident.shortlink
    affectedServices := ((incident.components.map (fun l => l.map RawComponentRef.name)).getD [])
    tags := ["github", incident.impact, incident.status] }

/-- The record GitHubStatusConnector.fetchComponents builds for one raw
component; group is the literal GitHub Services whenever group_id is truthy. -/
def componentToInsert (dataSourceId : Nat) (component : RawComponent) : InsertServiceComponent :=
  { dataSourceId := dataSourceId
    externalId := component.id
    name := component.name
    description := component.description
    status := component.status
    group := match component.group_id with
      | some g => if g = "" then none else some "GitHub Services"
      | none => none
    position := component.position
    showUptime := component.showcase }

end GitHubStatusConnector

namespace AzureStatusConnector

/-- AzureStatusConnector.mapStatus: three Azure states with investigating as
the fallback. -/
def mapStatus (status : String) : String :=
  if status = "Active" then "investigating"
  else if status = "Resolved" then "resolved"
  else if status = "Information" then "monitoring"
  else "investigating"

/-- AzureStatusConnector.mapSeverity. -/
def mapSeverity (severity : String) : String :=
  if severity = "Error" then "critical"
  else if severity = "Warning" then "high"
  else if severity = "Information" then "medium"
  else "medium"

/-- The record AzureStatusConnector.fetchIncidents builds for one raw issue. -/
def issueToInsert (dataSourceId : Nat) (issue : RawIssue) : InsertIncident :=
  { externalId := issue.id
    dataSourceId := dataSourceId
    systemName := "Microsoft Azure"
    title := issue.title
    description := issue.summary
    status := mapStatus issue.status
    severity := mapSeverity issue.severity
    impact := issue.severity
    startedAt := DateV.parsed issue.startTime
    resolvedAt := issue.endTime.map DateV.parsed
    updatedAt := DateV.parsed issue.lastUpdateTime
    externalUrl := issue.link
    affectedServices := issue.services.getD []
    tags := ["azure", issue.severity] }

/-- The record AzureStatusConnector.fetchComponents builds for one raw
service at a given array index. -/
def serviceToInsert (dataSourceId : Nat) (index : Nat) (service : RawService) : InsertServiceComponent :=
  { dataSourceId := dataSourceId
    externalId := match service.id with
      | some i => if i = "" then service.name else i
      | none => service.name
    name := service.name
    description := service.displayName
    status := (service.health.getD "operational")
    group := some "Azure Services"
    position := some index
    showUptime := some true }

end AzureStatusConnector

/-- The outside world seen through makeRequest, one channel per payload
shape: what an HTTP GET of the given URL yields, or the error (HTTP failure,
timeout, or a payload so malformed the mapping code throws). -/
structure World where
  incidentsAt : String → Except String (List RawIncident)
  componentsAt : String → Except String (List RawComponent)
  azureStatusAt : String → Except String AzureStatusPayload

/-- A constructed connector: the vendor-specific subclass holding its
ConnectorConfig with the bound data source. -/
inductive Connector
  | statusPage (dataSource : DataSource)
  | gitHubStatus (dataSource : DataSource)
  | azureStatus (dataSource : DataSource)
deriving DecidableEq, Repr

/-- ConnectorFactory.createConnector: the switch on dataSource.type; an
unknown type throws a descriptive error before anything else happens. -/
def createConnector (ds : DataSource) : Except String Connector :=
  if ds.type = "statuspage" then Except.ok (Connector.statusPage ds)
  else if ds.type = "github-status" then Except.ok (Connector.gitHubStatus ds)
  else if ds.type = "azure-status" then Except.ok (Connector.azureStatus ds)
  else Except.error ("Unsupported connector type: " ++ ds.type)

/-- fetchIncidents of each connector: one outbound request (logged as the
pair of the bound data source id and the URL) followed by the mapping of the
payload.  The request is attempted, and logged, whether or not it succeeds. -/
def fetchIncidents (w : World) : Connector → List (Nat × String) × Except String (List InsertIncident)
  | Connector.statusPage ds =>
      let url := ds.baseUrl ++ "/api/v2/incidents.json"
      ([(ds.id, url)],
        match w.incidentsAt url with
        | Except.ok l => Except.ok (l.map (StatusPageConnector.incidentToInsert ds.id))
        | Except.error e => Except.error e)
  | Connector.gitHubStatus ds =>
      let url := "https://kctbh9vrtdwd.statuspage.io/api/v2/incidents.json"
      ([(ds.id, url)],
        match w.incidentsAt url with
        | Except.ok l => Except.ok (l.map (GitHubStatusConnector.incidentToInsert ds.id))
        | Except.error e => Except.error e)
  | Connector.azureStatus ds =>
      let url := "https://status.azure.com/api/v2/status.json"
      ([(ds.id, url)],
        match w.azureStatusAt url with
        | Except.ok p => Except.ok (((p.issues.getD []).map (AzureStatusConnector.issueToInsert ds.id)))
        | Except.error e => Except.error e)

/-- fetchComponents of each connector, with the same request-logging shape. -/
def fetchComponents (w : World) : Connector → List (Nat × String) × Except String (List InsertServiceComponent)
  | Connector.statusPage ds =>
      let url := ds.baseUrl ++ "/api/v2/components.json"
      ([(ds.id, url)],
        match w.componentsAt url with
        | Except.ok l => Except.ok (l.map (StatusPageConnector.componentToInsert ds.id))
        | Except.error e => Except.error e)
  | Connector.gitHubStatus ds =>
      let url := "https://kctbh9vrtdwd.statuspage.io/api/v2/components.json"
      ([(ds.id, url)],
        match w.componentsAt url with
        | Except.ok l => Except.ok (l.map (GitHubStatusConnector.componentToInsert ds.id))
        | Except.error e => Except.error e)
  | Connector.azureStatus ds =>
      let url := "https://status.azure.com/api/v2/status.json"
      ([(ds.id, url)],
        match w.azureStatusAt url with
        | Except.ok p =>
            Except.ok (((p.services.getD []).enum.map
              (fun pr => AzureStatusConnector.serviceToInsert ds.id pr.1 pr.2)))
        | Except.error e => Except.error e)

/-- The state threaded through one orchestrator run: the storage plus the log
of outbound HTTP requests made so far. -/
structure SyncState where
  store : StorageState
  requests : List (Nat × String)
deriving DecidableEq, Repr

/-- The incident-upsert loop of syncDataSource over a fetched batch. -/
def upsertIncidentBatch (dsid t : Nat) (incs : List InsertIncident) (st : StorageState) : StorageState :=
  incs.foldl (fun s i => MemoryStorage.upsertIncidentByExternalId i.externalId dsid i t s) st

/-- The component-upsert loop of syncDataSource over a fetched batch. -/
def upsertComponentBatch (t : Nat) (comps : List InsertServiceComponent) (st : StorageState) : StorageState :=
  comps.foldl (fun s c => MemoryStorage.upsertServiceComponent c t s) st

/-- IncidentSyncService.syncDataSource: build the connector, fetch and upsert
the incidents, then fetch and upsert the components.  The Except value is the
exception the caller catches; the state keeps every write performed before
the failure point. -/
def syncDataSource (w : World) (t : Nat) (ds : DataSource) (s : SyncState) :
    SyncState × Except String Unit :=
  match createConnector ds with
  | Except.error e => (s, Except.error e)
  | Except.ok connector =>
    let fi := fetchIncidents w connector
    let s1 : SyncState := { s with requests := s.requests ++ fi.1 }
    match fi.2 with
    | Except.error e => (s1, Except.error e)
    | Except.ok incidents =>
      let s2 : SyncState := { s1 with store := upsertIncidentBatch ds.id t incidents s1.store }
      let fc := fetchComponents w connector
      let s3 : SyncState := { s2 with requests := s2.requests ++ fc.1 }
      match fc.2 with
      | Except.error e => (s3, Except.error e)
      | Except.ok components =>
        ({ s3 with store := upsertComponentBatch t components s3.store },
         Except.ok ())

/-- The body of the per-source loop in IncidentSyncService.syncAllDataSources:
try syncDataSource; on success stamp the source's sync time with no error, on
an exception record its message.  The try/catch is the match on the Except. -/
def syncOneSource (w : World) (t : Nat) (acc : SyncState) (ds : DataSource) : SyncState :=
  let r := syncDataSource w t ds acc
  match r.2 with
  | Except.ok _ =>
      { r.1 with store := MemoryStorage.updateDataSourceSyncTime ds.id none t r.1.store }
  | Except.error e =>
      { r.1 with store := MemoryStorage.updateDataSourceSyncTime ds.id (some e) t r.1.store }

/-- IncidentSyncService.syncAllDataSources: filter the active sources, then
run the per-source loop over them.  The per-source try/catch makes the run a
total function: no per-source failure escapes the loop. -/
def syncAllDataSources (w : World) (t : Nat) (s : SyncState) : SyncState :=
  let activeSources := s.store.dataSources.filter (fun ds => ds.isActive)
  activeSources.foldl (syncOneSource w t) s

/-- The number of orchestrator executions currently in flight. -/
structure OrchestratorFlight where
  inFlight : Nat
deriving DecidableEq, Repr

namespace Routes

/-- The POST /api/sync/all handler (src/server/routes.ts, and likewise the
per-source POST /api/data-sources/:id/sync handler): it invokes
syncService.syncAllDataSources() unconditionally -- fire-and-forget, with no
run-in-progress check anywhere on the manual path -- so its effect on the
number of in-flight orchestrator executions is always to start one more. -/
def manualSyncAllTrigger (s : OrchestratorFlight) : OrchestratorFlight :=
  { inFlight := s.inFlight + 1 }

end Routes

namespace Scheduler

/-- Modelled from the spec: the scheduler module (server/scheduler.ts) is
imported by routes.ts but is not among the sources.  Per spec section 4.5 its
run-in-progress guard makes a scheduled tick a no-op while a run is active
and otherwise starts exactly one orchestrator run. -/
def tick (s : OrchestratorFlight) : OrchestratorFlight :=
  if s.inFlight = 0 then { inFlight := 1 } else s

end Scheduler

/-! ## Generic lemmas about updateFirst -/

theorem updateFirst_of_forall_false {p : α → Bool} {f : α → α} {l : List α}
    (h : ∀ x ∈ l, p x = false) : updateFirst p f l = l := by
  induction l with
  | nil => rfl
  | cons x xs ih =>
      have hx := h x (List.mem_cons_self x xs)
      simp [updateFirst, hx, ih (fun y hy => h y (List.mem_cons_of_mem x hy))]

theorem updateFirst_append_left {p : α → Bool} {f : α → α} {l1 l2 : List α}
    (h : ∀ x ∈ l1, p x = false) :
    updateFirst p f (l1 ++ l2) = l1 ++ updateFirst p f l2 := by
  induction l1 with
  | nil => rfl
  | cons x xs ih =>
      have hx := h x (List.mem_cons_self x xs)
      simp [updateFirst, hx, ih (fun y hy => h y (List.mem_cons_of_mem x hy))]

theorem mem_updateFirst_of_false {p : α → Bool} {f : α → α} {l : List α} {x : α}
    (hx : x ∈ l) (hpx : p x = false) : x ∈ updateFirst p f l := by
  induction l with
  | nil => cases hx
  | cons y ys ih =>
      by_cases hpy : p y = true
      · simp only [updateFirst, hpy, if_true]
        rcases List.mem_cons.mp hx with rfl | hmem
        · rw [hpx] at hpy; cases hpy
        · exact List.mem_cons_of_mem _ hmem
      · simp only [updateFirst, hpy, if_false]
        rcases List.mem_cons.mp hx with rfl | hmem
        · exact List.mem_cons_self _ _
        · exact List.mem_cons_of_mem _ (ih hmem)

theorem exists_image_mem_updateFirst {p : α → Bool} {f : α → α} {l : List α}
    (h : ∃ x ∈ l, p x = true) : ∃ b ∈ l, f b ∈ updateFirst p f l := by
  induction l with
  | nil => rcases h with ⟨x, hx, _⟩; cases hx
  | cons y ys ih =>
      by_cases hpy : p y = true
      · exact ⟨y, List.mem_cons_self y ys, by simp [updateFirst, hpy]⟩
      · rcases h with ⟨x, hx, hpx⟩
        rcases List.mem_cons.mp hx with rfl | hmem
        · exact absurd hpx hpy
        · rcases ih ⟨x, hmem, hpx⟩ with ⟨b, hb, hfb⟩
          refine ⟨b, List.mem_cons_of_mem _ hb, ?_⟩
          simp only [updateFirst, hpy, if_false]
          exact List.mem_cons_of_mem _ hfb

theorem mem_of_mem_updateFirst {p : α → Bool} {f : α → α} {l : List α} {y : α}
    (hy : y ∈ updateFirst p f l) : y ∈ l ∨ ∃ x ∈ l, y = f x := by
  induction l with
  | nil => cases hy
  | cons z zs ih =>
      by_cases hpz : p z = true
      · simp only [updateFirst, hpz, if_true] at hy
        rcases List.mem_cons.mp hy with rfl | hmem
        · exact Or.inr ⟨z, List.mem_cons_self z zs, rfl⟩
        · exact Or.inl (List.mem_cons_of_mem _ hmem)
      · simp only [updateFirst, hpz, if_false] at hy
        rcases List.mem_cons.mp hy with rfl | hmem
        · exact Or.inl (List.mem_cons_self _ _)
        · rcases ih hmem with h | ⟨x, hx, rfl⟩
          · exact Or.inl (List.mem_cons_of_mem _ h)
          · exact Or.inr ⟨x, List.mem_cons_of_mem _ hx, rfl⟩

theorem map_updateFirst {p : α → Bool} {f : α → α} {g : α → β} {l : List α}
    (h : ∀ a, g (f a) = g a) : (updateFirst p f l).map g = l.map g := by
  induction l with
  | nil => rfl
  | cons x xs ih =>
      by_cases hpx : p x = true
      · simp [updateFirst, hpx, h]
      · simp [updateFirst, hpx, ih]

theorem find?_append_of_none {p : α → Bool} {l1 l2 : List α}
    (h : l1.find? p = none) : (l1 ++ l2).find? p = l2.find? p := by
  induction l1 with
  | nil => rfl
  | cons x xs ih =>
      rw [List.find?_cons] at h
      rcases hpx : p x with _ | _
      · rw [hpx] at h
        simp only [List.cons_append, List.find?_cons, hpx]
        exact ih h
      · rw [hpx] at h; cases h

/-! ## Store-level notions and lemmas -/

/-- Some incident row with the given composite key is in the store. -/
def hasIncKey (e : String) (d : Nat) (st : StorageState) : Bool :=
  st.incidents.any (fun i => i.externalId == e && i.dataSourceId == d)

/-- Some component row with the given composite key is in the store. -/
def hasCompKey (e : String) (d : Nat) (st : StorageState) : Bool :=
  st.serviceComponents.any (fun x => x.externalId == e && x.dataSourceId == d)

/-- The id discipline MemoryStorage maintains: incident row ids are pairwise
distinct and below the shared idCounter. -/
def IncIdsOk (st : StorageState) : Prop :=
  (st.incidents.map Incident.id).Nodup ∧ ∀ i ∈ st.incidents, i.id < st.idCounter

theorem incIdsOk_upsertInc {st : StorageState} {e : String} {d t : Nat}
    {ins : InsertIncident} (h : IncIdsOk st) :
    IncIdsOk (MemoryStorage.upsertIncidentByExternalId e d ins t st) := by
  obtain ⟨hnd, hlt⟩ := h
  unfold IncIdsOk MemoryStorage.upsertIncidentByExternalId
  split
  · dsimp only
    refine ⟨?_, ?_⟩
    · rw [map_updateFirst (f := fun i => applyIncidentInsert t i ins) (g := Incident.id) (fun a => rfl)]
      exact hnd
    · intro i hi
      rcases mem_of_mem_updateFirst hi with hmem | ⟨x, hx, rfl⟩
      · exact hlt i hmem
      · exact hlt x hx
  · dsimp only
    refine ⟨?_, ?_⟩
    · simp only [List.map_append, List.map_cons, List.map_nil]
      rw [List.nodup_append]
      refine ⟨hnd, List.nodup_singleton _, ?_⟩
      intro a ha hb
      simp only [List.mem_singleton] at hb
      subst hb
      rcases List.mem_map.mp ha with ⟨i, hi, hid⟩
      have hbound := hlt i hi
      simp only [mkIncidentRow] at hid
      omega
    · intro i hi
      rcases List.mem_append.mp hi with hmem | hmem
      · exact Nat.lt_succ_of_lt (hlt i hmem)
      · simp only [List.mem_singleton] at hmem
        subst hmem
        exact Nat.lt_succ_self _

theorem incidents_upsertComp {st : StorageState} {c : InsertServiceComponent} {t : Nat} :
    (MemoryStorage.upsertServiceComponent c t st).incidents = st.incidents := by
  unfold MemoryStorage.upsertServiceComponent
  split <;> rfl

theorem idCounter_le_upsertComp {st : StorageState} {c : InsertServiceComponent} {t : Nat} :
    st.idCounter ≤ (MemoryStorage.upsertServiceComponent c t st).idCounter := by
  unfold MemoryStorage.upsertServiceComponent
  split
  · exact Nat.le_refl _
  · exact Nat.le_succ _

theorem incIdsOk_upsertComp {st : StorageState} {c : InsertServiceComponent} {t : Nat}
    (h : IncIdsOk st) : IncIdsOk (MemoryStorage.upsertServiceComponent c t st) := by
  obtain ⟨hnd, hlt⟩ := h
  refine ⟨by rw [incidents_upsertComp]; exact hnd, ?_⟩
  intro i hi
  rw [incidents_upsertComp] at hi
  exact Nat.lt_of_lt_of_le (hlt i hi) idCounter_le_upsertComp

theorem dataSources_upsertInc {st : StorageState} {e : String} {d t : Nat}
    {ins : InsertIncident} :
    (MemoryStorage.upsertIncidentByExternalId e d ins t st).dataSources = st.dataSources := by
  unfold MemoryStorage.upsertIncidentByExternalId
  split <;> rfl

theorem dataSources_upsertComp {st : StorageState} {c : InsertServiceComponent} {t : Nat} :
    (MemoryStorage.upsertServiceComponent c t st).dataSources = st.dataSources := by
  unfold MemoryStorage.upsertServiceComponent
  split <;> rfl

theorem serviceComponents_upsertInc {st : StorageState} {e : String} {d t : Nat}
    {ins : InsertIncident} :
    (MemoryStorage.upsertIncidentByExternalId e d ins t st).serviceComponents = st.serviceComponents := by
  unfold MemoryStorage.upsertIncidentByExternalId
  split <;> rfl

theorem tables_updateDataSourceSyncTime {st : StorageState} {id t : Nat} {err : Option String} :
    (MemoryStorage.updateDataSourceSyncTime id err t st).incidents = st.incidents
    ∧ (MemoryStorage.updateDataSourceSyncTime id err t st).serviceComponents = st.serviceComponents
    ∧ (MemoryStorage.updateDataSourceSyncTime id err t st).idCounter = st.idCounter := by
  exact ⟨rfl, rfl, rfl⟩

theorem hasIncKey_upsert_self {st : StorageState} {e : String} {d t : Nat} {ins : InsertIncident}
    (hke : ins.externalId = e) (hkd : ins.dataSourceId = d) :
    hasIncKey e d (MemoryStorage.upsertIncidentByExternalId e d ins t st) = true := by
  unfold hasIncKey MemoryStorage.upsertIncidentByExternalId
  split
  next x ex hf =>
    dsimp only
    have hex : ex ∈ st.incidents := List.mem_of_find?_eq_some hf
    have hpex : (ex.id == ex.id) = true := by simp
    rcases exists_image_mem_updateFirst (p := fun i => i.id == ex.id)
        (f := fun i => applyIncidentInsert t i ins) ⟨ex, hex, hpex⟩ with ⟨b, hb, hfb⟩
    rw [List.any_eq_true]
    exact ⟨_, hfb, by simp [applyIncidentInsert, hke, hkd]⟩
  next x hf =>
    dsimp only
    rw [List.any_eq_true]
    refine ⟨mkIncidentRow st.idCounter t ins, List.mem_append_right _ (List.mem_singleton.mpr rfl), ?_⟩
    simp [mkIncidentRow, hke, hkd]

theorem hasIncKey_upsert_preserve {st : StorageState} {e e2 : String} {d d2 t : Nat}
    {ins : InsertIncident} (h : hasIncKey e d st = true) (hinv : IncIdsOk st)
    (hke : ins.externalId = e2) (hkd : ins.dataSourceId = d2) :
    hasIncKey e d (MemoryStorage.upsertIncidentByExternalId e2 d2 ins t st) = true := by
  by_cases hsame : e = e2 ∧ d = d2
  · obtain ⟨he, hd⟩ := hsame
    subst he; subst hd
    exact hasIncKey_upsert_self hke hkd
  · rcases List.any_eq_true.mp h with ⟨w, hw, hwkey⟩
    unfold hasIncKey MemoryStorage.upsertIncidentByExternalId
    split
    next x ex hf =>
      dsimp only
      have hex : ex ∈ st.incidents := List.mem_of_find?_eq_some hf
      have hexkey := List.find?_some hf
      have hwne : w ≠ ex := by
        intro hcontra
        subst hcontra
        apply hsame
        simp only [Bool.and_eq_true, beq_iff_eq] at hwkey hexkey
        exact ⟨hwkey.1.symm.trans hexkey.1, hwkey.2.symm.trans hexkey.2⟩
      have hidne : (w.id == ex.id) = false := by
        rw [beq_eq_false_iff_ne]
        intro hid
        exact hwne (List.inj_on_of_nodup_map hinv.1 hw hex hid)
      rw [List.any_eq_true]
      exact ⟨w, mem_updateFirst_of_false hw hidne, hwkey⟩
    next x hf =>
      dsimp only
      rw [List.any_eq_true]
      exact ⟨w, List.mem_append_left _ hw, hwkey⟩

theorem hasCompKey_upsert_self {st : StorageState} {t : Nat} {c : InsertServiceComponent} :
    hasCompKey c.externalId c.dataSourceId (MemoryStorage.upsertServiceComponent c t st) = true := by
  unfold hasCompKey MemoryStorage.upsertServiceComponent
  split
  next x ex hf =>
    dsimp only
    have hex : ex ∈ st.serviceComponents := List.mem_of_find?_eq_some hf
    have hpex := List.find?_some hf
    rcases exists_image_mem_updateFirst
        (p := fun x => x.externalId == c.externalId && x.dataSourceId == c.dataSourceId)
        (f := fun x => applyComponentInsert t x c) ⟨ex, hex, hpex⟩ with ⟨b, hb, hfb⟩
    rw [List.any_eq_true]
    exact ⟨_, hfb, by simp [applyComponentInsert]⟩
  next x hf =>
    dsimp only
    rw [List.any_eq_true]
    refine ⟨mkComponentRow st.idCounter t c, List.mem_append_right _ (List.mem_singleton.mpr rfl), ?_⟩
    simp [mkComponentRow]

theorem hasCompKey_upsert_preserve {st : StorageState} {e : String} {d t : Nat}
    {c : InsertServiceComponent} (h : hasCompKey e d st = true) :
    hasCompKey e d (MemoryStorage.upsertServiceComponent c t st) = true := by
  by_cases hsame : e = c.externalId ∧ d = c.dataSourceId
  · obtain ⟨he, hd⟩ := hsame
    subst he; subst hd
    exact hasCompKey_upsert_self
  · rcases List.any_eq_true.mp h with ⟨w, hw, hwkey⟩
    unfold hasCompKey MemoryStorage.upsertServiceComponent
    split
    next x ex hf =>
      dsimp only
      have hwp : (w.externalId == c.externalId && w.dataSourceId == c.dataSourceId) = false := by
        rcases hb : (w.externalId == c.externalId && w.dataSourceId == c.dataSourceId) with _ | _
        · rfl
        · exfalso
          apply hsame
          simp only [Bool.and_eq_true, beq_iff_eq] at hwkey hb
          exact ⟨hwkey.1.symm.trans hb.1, hwkey.2.symm.trans hb.2⟩
      rw [List.any_eq_true]
      exact ⟨w, mem_updateFirst_of_false hw hwp, hwkey⟩
    next x hf =>
      dsimp only
      rw [List.any_eq_true]
      exact ⟨w, List.mem_append_left _ hw, hwkey⟩

theorem hasIncKey_upsertComp {st : StorageState} {e : String} {d t : Nat}
    {c : InsertServiceComponent} :
    hasIncKey e d (MemoryStorage.upsertServiceComponent c t st) = hasIncKey e d st := by
  unfold hasIncKey
  rw [incidents_upsertComp]

theorem hasIncKey_updateDS {st : StorageState} {e : String} {d id t : Nat} {err : Option String} :
    hasIncKey e d (MemoryStorage.updateDataSourceSyncTime id err t st) = hasIncKey e d st := rfl

theorem hasCompKey_updateDS {st : StorageState} {e : String} {d id t : Nat} {err : Option String} :
    hasCompKey e d (MemoryStorage.updateDataSourceSyncTime id err t st) = hasCompKey e d st := rfl

theorem incIdsOk_upsertIncidentBatch {incs : List InsertIncident} {st : StorageState} {dsid t : Nat}
    (hinv : IncIdsOk st) : IncIdsOk (upsertIncidentBatch dsid t incs st) := by
  induction incs generalizing st with
  | nil => exact hinv
  | cons i rest ih => exact ih (incIdsOk_upsertInc hinv)

theorem hasIncKey_upsertIncidentBatch_preserve {incs : List InsertIncident} {st : StorageState}
    {e : String} {d dsid t : Nat} (hinv : IncIdsOk st)
    (hkey : ∀ j ∈ incs, j.dataSourceId = dsid) (h : hasIncKey e d st = true) :
    hasIncKey e d (upsertIncidentBatch dsid t incs st) = true := by
  induction incs generalizing st with
  | nil => exact h
  | cons i rest ih =>
      exact ih (incIdsOk_upsertInc hinv)
        (fun j hj => hkey j (List.mem_cons_of_mem i hj))
        (hasIncKey_upsert_preserve h hinv rfl (hkey i (List.mem_cons_self i rest)))

theorem hasIncKey_upsertIncidentBatch {incs : List InsertIncident} {st : StorageState}
    {dsid t : Nat} (hinv : IncIdsOk st) (hkey : ∀ j ∈ incs, j.dataSourceId = dsid) :
    ∀ i ∈ incs, hasIncKey i.externalId dsid (upsertIncidentBatch dsid t incs st) = true := by
  induction incs generalizing st with
  | nil => intro i hi; cases hi
  | cons j rest ih =>
      intro i hi
      rcases List.mem_cons.mp hi with rfl | hmem
      · show hasIncKey i.externalId dsid
            (upsertIncidentBatch dsid t rest
              (MemoryStorage.upsertIncidentByExternalId i.externalId dsid i t st)) = true
        exact hasIncKey_upsertIncidentBatch_preserve (incIdsOk_upsertInc hinv)
          (fun k hk => hkey k (List.mem_cons_of_mem i hk))
          (hasIncKey_upsert_self rfl (hkey i (List.mem_cons_self i rest)))
      · show hasIncKey i.externalId dsid
            (upsertIncidentBatch dsid t rest
              (MemoryStorage.upsertIncidentByExternalId j.externalId dsid j t st)) = true
        exact ih (incIdsOk_upsertInc hinv) (fun k hk => hkey k (List.mem_cons_of_mem j hk)) i hmem

theorem hasCompKey_upsertComponentBatch_preserve {comps : List InsertServiceComponent}
    {st : StorageState} {e : String} {d t : Nat} (h : hasCompKey e d st = true) :
    hasCompKey e d (upsertComponentBatch t comps st) = true := by
  induction comps generalizing st with
  | nil => exact h
  | cons c rest ih => exact ih (hasCompKey_upsert_preserve h)

theorem hasCompKey_upsertComponentBatch {comps : List InsertServiceComponent} {st : StorageState}
    {t : Nat} :
    ∀ c ∈ comps, hasCompKey c.externalId c.dataSourceId (upsertComponentBatch t comps st) = true := by
  induction comps generalizing st with
  | nil => intro c hc; cases hc
  | cons x rest ih =>
      intro c hc
      rcases List.mem_cons.mp hc with rfl | hmem
      · show hasCompKey c.externalId c.dataSourceId
            (upsertComponentBatch t rest (MemoryStorage.upsertServiceComponent c t st)) = true
        exact hasCompKey_upsertComponentBatch_preserve hasCompKey_upsert_self
      · show hasCompKey c.externalId c.dataSourceId
            (upsertComponentBatch t rest (MemoryStorage.upsertServiceComponent x t st)) = true
        exact ih c hmem

theorem incidents_upsertComponentBatch {comps : List InsertServiceComponent} {st : StorageState}
    {t : Nat} : (upsertComponentBatch t comps st).incidents = st.incidents := by
  induction comps generalizing st with
  | nil => rfl
  | cons c rest ih =>
      show (upsertComponentBatch t rest (MemoryStorage.upsertServiceComponent c t st)).incidents = st.incidents
      rw [ih, incidents_upsertComp]

theorem dataSources_upsertIncidentBatch {incs : List InsertIncident} {st : StorageState}
    {dsid t : Nat} : (upsertIncidentBatch dsid t incs st).dataSources = st.dataSources := by
  induction incs generalizing st with
  | nil => rfl
  | cons i rest ih =>
      show (upsertIncidentBatch dsid t rest
        (MemoryStorage.upsertIncidentByExternalId i.externalId dsid i t st)).dataSources = st.dataSources
      rw [ih, dataSources_upsertInc]

theorem dataSources_upsertComponentBatch {comps : List InsertServiceComponent} {st : StorageState}
    {t : Nat} : (upsertComponentBatch t comps st).dataSources = st.dataSources := by
  induction comps generalizing st with
  | nil => rfl
  | cons c rest ih =>
      show (upsertComponentBatch t rest
        (MemoryStorage.upsertServiceComponent c t st)).dataSources = st.dataSources
      rw [ih, dataSources_upsertComp]

theorem serviceComponents_upsertIncidentBatch {incs : List InsertIncident} {st : StorageState}
    {dsid t : Nat} : (upsertIncidentBatch dsid t incs st).serviceComponents = st.serviceComponents := by
  induction incs generalizing st with
  | nil => rfl
  | cons i rest ih =>
      show (upsertIncidentBatch dsid t rest
        (MemoryStorage.upsertIncidentByExternalId i.externalId dsid i t st)).serviceComponents = st.serviceComponents
      rw [ih, serviceComponents_upsertInc]

theorem incIdsOk_upsertComponentBatch {comps : List InsertServiceComponent} {st : StorageState}
    {t : Nat} (hinv : IncIdsOk st) : IncIdsOk (upsertComponentBatch t comps st) := by
  induction comps generalizing st with
  | nil => exact hinv
  | cons c rest ih => exact ih (incIdsOk_upsertComp hinv)

theorem incIdsOk_updateDS {st : StorageState} {id t : Nat} {err : Option String}
    (hinv : IncIdsOk st) : IncIdsOk (MemoryStorage.updateDataSourceSyncTime id err t st) := hinv

/-! ## Lemmas about one source's sync step -/

theorem syncDataSource_factory_error {w : World} {t : Nat} {ds : DataSource} {s : SyncState}
    {e : String} (he : createConnector ds = Except.error e) :
    syncDataSource w t ds s = (s, Except.error e) := by
  simp only [syncDataSource, he]

theorem syncDataSource_incidents_error {w : World} {t : Nat} {ds : DataSource} {s : SyncState}
    {c : Connector} {e : String}
    (hc : createConnector ds = Except.ok c)
    (hi : (fetchIncidents w c).2 = Except.error e) :
    syncDataSource w t ds s =
      ({ store := s.store, requests := s.requests ++ (fetchIncidents w c).1 }, Except.error e) := by
  simp only [syncDataSource, hc, hi]

theorem syncDataSource_success {w : World} {t : Nat} {ds : DataSource} {s : SyncState}
    {c : Connector} {incs : List InsertIncident} {comps : List InsertServiceComponent}
    (hc : createConnector ds = Except.ok c)
    (hi : (fetchIncidents w c).2 = Except.ok incs)
    (hcm : (fetchComponents w c).2 = Except.ok comps) :
    syncDataSource w t ds s =
      ({ store := upsertComponentBatch t comps (upsertIncidentBatch ds.id t incs s.store),
         requests := s.requests ++ (fetchIncidents w c).1 ++ (fetchComponents w c).1 },
       Except.ok ()) := by
  simp only [syncDataSource, hc, hi, hcm]

theorem syncDataSource_components_error {w : World} {t : Nat} {ds : DataSource} {s : SyncState}
    {c : Connector} {incs : List InsertIncident} {msg : String}
    (hc : createConnector ds = Except.ok c)
    (hi : (fetchIncidents w c).2 = Except.ok incs)
    (hcm : (fetchComponents w c).2 = Except.error msg) :
    syncDataSource w t ds s =
      ({ store := upsertIncidentBatch ds.id t incs s.store,
         requests := s.requests ++ (fetchIncidents w c).1 ++ (fetchComponents w c).1 },
       Except.error msg) := by
  simp only [syncDataSource, hc, hi, hcm]

theorem syncDataSource_dataSources {w : World} {t : Nat} {ds : DataSource} {s : SyncState} :
    (syncDataSource w t ds s).1.store.dataSources = s.store.dataSources := by
  rcases hcc : createConnector ds with e | c
  · rw [syncDataSource_factory_error hcc]
  · rcases hii : (fetchIncidents w c).2 with e | incs
    · rw [syncDataSource_incidents_error hcc hii]
    · rcases hmm : (fetchComponents w c).2 with e | comps
      · rw [syncDataSource_components_error hcc hii hmm]
        exact dataSources_upsertIncidentBatch
      · rw [syncDataSource_success hcc hii hmm]
        show (upsertComponentBatch t comps (upsertIncidentBatch ds.id t incs s.store)).dataSources
          = s.store.dataSources
        rw [dataSources_upsertComponentBatch, dataSources_upsertIncidentBatch]

theorem syncDataSource_incIdsOk {w : World} {t : Nat} {ds : DataSource} {s : SyncState}
    (hinv : IncIdsOk s.store) : IncIdsOk (syncDataSource w t ds s).1.store := by
  rcases hcc : createConnector ds with e | c
  · rw [syncDataSource_factory_error hcc]; exact hinv
  · rcases hii : (fetchIncidents w c).2 with e | incs
    · rw [syncDataSource_incidents_error hcc hii]; exact hinv
    · rcases hmm : (fetchComponents w c).2 with e | comps
      · rw [syncDataSource_components_error hcc hii hmm]
        exact incIdsOk_upsertIncidentBatch hinv
      · rw [syncDataSource_success hcc hii hmm]
        exact incIdsOk_upsertComponentBatch (incIdsOk_upsertIncidentBatch hinv)

/-! ## Connector coherence lemmas -/

theorem fetchIncidents_dsid {w : World} {ds : DataSource} {c : Connector}
    {incs : List InsertIncident} (hc : createConnector ds = Except.ok c)
    (hi : (fetchIncidents w c).2 = Except.ok incs) :
    ∀ i ∈ incs, i.dataSourceId = ds.id := by
  unfold createConnector at hc
  split_ifs at hc <;> injection hc with hc <;> subst hc <;>
    unfold fetchIncidents at hi <;> dsimp only at hi
  · rcases hw : w.incidentsAt (ds.baseUrl ++ "/api/v2/incidents.json") with e | l <;> rw [hw] at hi
    · cases hi
    · injection hi with hi
      subst hi
      intro i hmem
      rcases List.mem_map.mp hmem with ⟨raw, hraw, rfl⟩
      rfl
  · rcases hw : w.incidentsAt "https://kctbh9vrtdwd.statuspage.io/api/v2/incidents.json" with e | l <;>
      rw [hw] at hi
    · cases hi
    · injection hi with hi
      subst hi
      intro i hmem
      rcases List.mem_map.mp hmem with ⟨raw, hraw, rfl⟩
      rfl
  · rcases hw : w.azureStatusAt "https://status.azure.com/api/v2/status.json" with e | p <;>
      rw [hw] at hi
    · cases hi
    · injection hi with hi
      subst hi
      intro i hmem
      rcases List.mem_map.mp hmem with ⟨raw, hraw, rfl⟩
      rfl

theorem fetchComponents_dsid {w : World} {ds : DataSource} {c : Connector}
    {comps : List InsertServiceComponent} (hc : createConnector ds = Except.ok c)
    (hcm : (fetchComponents w c).2 = Except.ok comps) :
    ∀ x ∈ comps, x.dataSourceId = ds.id := by
  unfold createConnector at hc
  split_ifs at hc <;> injection hc with hc <;> subst hc <;>
    unfold fetchComponents at hcm <;> dsimp only at hcm
  · rcases hw : w.componentsAt (ds.baseUrl ++ "/api/v2/components.json") with e | l <;> rw [hw] at hcm
    · cases hcm
    · injection hcm with hcm
      subst hcm
      intro x hmem
      rcases List.mem_map.mp hmem with ⟨raw, hraw, rfl⟩
      rfl
  · rcases hw : w.componentsAt "https://kctbh9vrtdwd.statuspage.io/api/v2/components.json" with e | l <;>
      rw [hw] at hcm
    · cases hcm
    · injection hcm with hcm
      subst hcm
      intro x hmem
      rcases List.mem_map.mp hmem with ⟨raw, hraw, rfl⟩
      rfl
  · rcases hw : w.azureStatusAt "https://status.azure.com/api/v2/status.json" with e | p <;>
      rw [hw] at hcm
    · cases hcm
    · injection hcm with hcm
      subst hcm
      intro x hmem
      rcases List.mem_map.mp hmem with ⟨raw, hraw, rfl⟩
      rfl

theorem fetchIncidents_requests_id {w : World} {ds : DataSource} {c : Connector}
    (hc : createConnector ds = Except.ok c) :
    ∀ q ∈ (fetchIncidents w c).1, q.1 = ds.id := by
  unfold createConnector at hc
  split_ifs at hc <;> injection hc with hc <;> subst hc <;>
    intro q hq <;> unfold fetchIncidents at hq <;> dsimp only at hq <;>
    simp only [List.mem_singleton] at hq <;> subst hq <;> rfl

theorem fetchComponents_requests_id {w : World} {ds : DataSource} {c : Connector}
    (hc : createConnector ds = Except.ok c) :
    ∀ q ∈ (fetchComponents w c).1, q.1 = ds.id := by
  unfold createConnector at hc
  split_ifs at hc <;> injection hc with hc <;> subst hc <;>
    intro q hq <;> unfold fetchComponents at hq <;> dsimp only at hq <;>
    simp only [List.mem_singleton] at hq <;> subst hq <;> rfl

/-! ## Fixtures -/

/-- A statuspage data source used in concrete scenarios. -/
def scenarioASource : DataSource :=
  { id := 7, name := "Example Status", type := "statuspage",
    baseUrl := "https://status.example.com", isActive := true,
    lastSyncAt := none, lastError := none, retryCount := 0, updatedAt := none }

/-- The raw incident of spec Scenario A. -/
def scenarioARaw : RawIncident :=
  { id := "abc", name := "DB outage", status := "monitoring", impact := "major",
    created_at := "2024-01-01T00:00:00Z", resolved_at := none,
    updated_at := "2024-01-01T01:00:00Z", shortlink := none, components := none,
    incident_updates := [{ body := "fix deployed" }] }

/-- A world whose incidents endpoint serves exactly the Scenario A payload. -/
def scenarioAWorld : World :=
  { incidentsAt := fun _ => Except.ok [scenarioARaw],
    componentsAt := fun _ => Except.ok [],
    azureStatusAt := fun _ => Except.ok { issues := none, services := none } }

/-! ## Claim theorems -/

/-- C3 counterexample: StatusPageConnector.mapStatus falls back to the raw
input itself, so the empty string (an input the claim covers) is returned
unchanged and is not in the canonical status set. -/
theorem c3_mapStatus_counterexample :
    StatusPageConnector.mapStatus "" = "" ∧ "" ∉ canonicalStatuses := by
  constructor
  · rfl
  · decide

/-- C3 (amended): no connector's mapStatus can throw; the StatusPage and
GitHub connectors map every vendor status their tables recognize into the
canonical set and return the raw input itself, unchanged, for every
unrecognized input; the Azure connector always lands in the canonical set,
mapping every unrecognized input to investigating. -/
theorem c3_mapStatus_total_amended (s : String) :
    (s ∈ ["investigating", "identified", "monitoring", "resolved", "postmortem"] →
        StatusPageConnector.mapStatus s ∈ canonicalStatuses)
    ∧ (s ∉ ["investigating", "identified", "monitoring", "resolved", "postmortem"] →
        StatusPageConnector.mapStatus s = s)
    ∧ (s ∈ ["investigating", "identified", "monitoring", "resolved"] →
        GitHubStatusConnector.mapStatus s ∈ canonicalStatuses)
    ∧ (s ∉ ["investigating", "identified", "monitoring", "resolved"] →
        GitHubStatusConnector.mapStatus s = s)
    ∧ AzureStatusConnector.mapStatus s ∈ canonicalStatuses
    ∧ (s ∉ ["Active", "Resolved", "Information"] →
        AzureStatusConnector.mapStatus s = "investigating") := by
  refine ⟨?_, ?_, ?_, ?_, ?_, ?_⟩
  · intro hmem
    unfold StatusPageConnector.mapStatus
    split_ifs with h1 h2 h3 h4 h5 <;> try decide
    simp only [List.mem_cons, List.not_mem_nil, or_false] at hmem
    rcases hmem with rfl | rfl | rfl | rfl | rfl
    · exact absurd rfl h1
    · exact absurd rfl h2
    · exact absurd rfl h3
    · exact absurd rfl h4
    · exact absurd rfl h5
  · intro hmem
    unfold StatusPageConnector.mapStatus
    split_ifs with h1 h2 h3 h4 h5 <;> try rfl
    · exact absurd (by rw [h1]; decide) hmem
    · exact absurd (by rw [h2]; decide) hmem
    · exact absurd (by rw [h3]; decide) hmem
    · exact absurd (by rw [h4]; decide) hmem
    · exact absurd (by rw [h5]; decide) hmem
  · intro hmem
    unfold GitHubStatusConnector.mapStatus
    split_ifs with h1 h2 h3 h4 <;> try decide
    simp only [List.mem_cons, List.not_mem_nil, or_false] at hmem
    rcases hmem with rfl | rfl | rfl | rfl
    · exact absurd rfl h1
    · exact absurd rfl h2
    · exact absurd rfl h3
    · exact absurd rfl h4
  · intro hmem
    unfold GitHubStatusConnector.mapStatus
    split_ifs with h1 h2 h3 h4 <;> try rfl
    · exact absurd (by rw [h1]; decide) hmem
    · exact absurd (by rw [h2]; decide) hmem
    · exact absurd (by rw [h3]; decide) hmem
    · exact absurd (by rw [h4]; decide) hmem
  · unfold AzureStatusConnector.mapStatus
    split_ifs <;> decide
  · intro hmem
    unfold AzureStatusConnector.mapStatus
    split_ifs with h1 h2 h3 <;> try rfl
    · exact absurd (by rw [h2]; decide) hmem
    · exact absurd (by rw [h3]; decide) hmem

/-- C3 witness: the amended theorem applied at a recognized status, at
unrecognized statuses passed through unchanged (the empty string included),
and at Azure's investigating fallback. -/
theorem c3_mapStatus_total_amended_witness :
    StatusPageConnector.mapStatus "postmortem" ∈ canonicalStatuses
    ∧ StatusPageConnector.mapStatus "degraded" = "degraded"
    ∧ GitHubStatusConnector.mapStatus "" = ""
    ∧ AzureStatusConnector.mapStatus "" = "investigating" :=
  ⟨(c3_mapStatus_total_amended "postmortem").1 (by decide),
   (c3_mapStatus_total_amended "degraded").2.1 (by decide),
   (c3_mapStatus_total_amended "").2.2.2.1 (by decide),
   (c3_mapStatus_total_amended "").2.2.2.2.2 (by decide)⟩

/-- C5: every connector's mapSeverity lands in the canonical severity set,
every unrecognized value (the empty string included) falls back to medium,
and the Scenario A payload yields an incident record with status monitoring
and severity high out of StatusPageConnector.fetchIncidents. -/
theorem c5_mapSeverity_total_scenarioA (s : String) :
    StatusPageConnector.mapSeverity s ∈ canonicalSeverities
    ∧ GitHubStatusConnector.mapSeverity s ∈ canonicalSeverities
    ∧ AzureStatusConnector.mapSeverity s ∈ canonicalSeverities
    ∧ (s ∉ ["critical", "major", "minor", "none"] →
        StatusPageConnector.mapSeverity s = "medium" ∧ GitHubStatusConnector.mapSeverity s = "medium")
    ∧ (s ∉ ["Error", "Warning", "Information"] → AzureStatusConnector.mapSeverity s = "medium")
    ∧ (fetchIncidents scenarioAWorld (Connector.statusPage scenarioASource)).2
        = Except.ok [StatusPageConnector.incidentToInsert scenarioASource.id scenarioARaw]
    ∧ (StatusPageConnector.incidentToInsert scenarioASource.id scenarioARaw).status = "monitoring"
    ∧ (StatusPageConnector.incidentToInsert scenarioASource.id scenarioARaw).severity = "high" := by
  refine ⟨?_, ?_, ?_, ?_, ?_, ?_, ?_, ?_⟩
  · unfold StatusPageConnector.mapSeverity
    split_ifs <;> decide
  · unfold GitHubStatusConnector.mapSeverity
    split_ifs <;> decide
  · unfold AzureStatusConnector.mapSeverity
    split_ifs <;> decide
  · intro hmem
    unfold StatusPageConnector.mapSeverity GitHubStatusConnector.mapSeverity
    split_ifs with h1 h2 h3 h4 <;> try (exact ⟨rfl, rfl⟩)
    · exact absurd (by rw [h1]; decide) hmem
    · exact absurd (by rw [h2]; decide) hmem
    · exact absurd (by rw [h4]; decide) hmem
  · intro hmem
    unfold AzureStatusConnector.mapSeverity
    split_ifs with h1 h2 h3 <;> try rfl
    · exact absurd (by rw [h1]; decide) hmem
    · exact absurd (by rw [h2]; decide) hmem
  · rfl
  · decide
  · decide

/-- C5 witness: the theorem at the empty string, with both fallback
hypotheses discharged. -/
theorem c5_mapSeverity_total_scenarioA_witness :
    StatusPageConnector.mapSeverity "" = "medium" ∧ AzureStatusConnector.mapSeverity "" = "medium" :=
  ⟨((c5_mapSeverity_total_scenarioA "").2.2.2.1 (by decide)).1,
   (c5_mapSeverity_total_scenarioA "").2.2.2.2.1 (by decide)⟩

theorem find?_updateFirst {p : α → Bool} {f : α → α} {l : List α}
    (hf : ∀ a, p a = true → p (f a) = true) :
    (updateFirst p f l).find? p = (l.find? p).map f := by
  induction l with
  | nil => rfl
  | cons x xs ih =>
      rcases hx : p x with _ | _
      · simp [updateFirst, hx, List.find?_cons, ih]
      · simp [updateFirst, hx, List.find?_cons, hf x hx]

/-- C7: the membership characterisations of the three read paths, for both
the in-memory store and the database store: active incidents are exactly the
rows with a true isActive flag and a status other than resolved, and the
by-status / by-severity reads also require the isActive flag. -/
theorem c7_incident_read_filters (st : StorageState) (i : Incident) (s v : String) :
    (i ∈ MemoryStorage.getActiveIncidents st ↔
      i ∈ st.incidents ∧ i.isActive = some true ∧ i.status ≠ "resolved")
    ∧ (i ∈ Db.getActiveIncidents st ↔
      i ∈ st.incidents ∧ i.isActive = some true ∧ i.status ≠ "resolved")
    ∧ (i ∈ MemoryStorage.getIncidentsByStatus s st ↔
      i ∈ st.incidents ∧ i.status = s ∧ i.isActive = some true)
    ∧ (i ∈ Db.getIncidentsByStatus s st ↔
      i ∈ st.incidents ∧ i.status = s ∧ i.isActive = some true)
    ∧ (i ∈ MemoryStorage.getIncidentsBySeverity v st ↔
      i ∈ st.incidents ∧ i.severity = v ∧ i.isActive = some true)
    ∧ (i ∈ Db.getIncidentsBySeverity v st ↔
      i ∈ st.incidents ∧ i.severity = v ∧ i.isActive = some true) := by
  refine ⟨?_, ?_, ?_, ?_, ?_, ?_⟩ <;>
    simp [MemoryStorage.getActiveIncidents, Db.getActiveIncidents,
      MemoryStorage.getIncidentsByStatus, Db.getIncidentsByStatus,
      MemoryStorage.getIncidentsBySeverity, Db.getIncidentsBySeverity,
      List.mem_filter, and_assoc, bne_iff_ne]

/-- C9: updateDataSourceSyncTime stamps lastSyncAt (and updatedAt) with the
current time on failed attempts exactly as on successes, in both stores; on
an error it also records the message and bumps retryCount, on success it
clears the error and resets retryCount. -/
theorem c9_lastSyncAt_stamps_attempt (st : StorageState) (id : Nat) (err : Option String) (t : Nat) :
    (∀ d, st.dataSources.find? (fun x => x.id == id) = some d →
      ∃ d1, (MemoryStorage.updateDataSourceSyncTime id err t st).dataSources.find?
          (fun x => x.id == id) = some d1
        ∧ d1.lastSyncAt = some (DateV.clock t) ∧ d1.updatedAt = some (DateV.clock t)
        ∧ (err = none → d1.lastError = none ∧ d1.retryCount = 0)
        ∧ (∀ e, err = some e → d1.lastError = some e ∧ d1.retryCount = d.retryCount + 1))
    ∧ (∀ d2 ∈ (Db.updateDataSourceSyncTime id err t st).dataSources, d2.id = id →
        d2.lastSyncAt = some (DateV.clock t) ∧ d2.updatedAt = some (DateV.clock t)) := by
  constructor
  · intro d hd
    rcases err with _ | e
    · have hre : (MemoryStorage.updateDataSourceSyncTime id none t st).dataSources.find?
            (fun x => x.id == id)
          = (st.dataSources.find? (fun x => x.id == id)).map
              (fun d => { d with lastSyncAt := some (DateV.clock t), updatedAt := some (DateV.clock t), lastError := none, retryCount := 0 }) :=
        find?_updateFirst (fun a ha => ha)
      rw [hre, hd]
      exact ⟨_, rfl, rfl, rfl, fun _ => ⟨rfl, rfl⟩, fun e he => Option.noConfusion he⟩
    · have hre : (MemoryStorage.updateDataSourceSyncTime id (some e) t st).dataSources.find?
            (fun x => x.id == id)
          = (st.dataSources.find? (fun x => x.id == id)).map
              (fun d => { d with lastSyncAt := some (DateV.clock t), updatedAt := some (DateV.clock t), lastError := some e, retryCount := d.retryCount + 1 }) :=
        find?_updateFirst (fun a ha => ha)
      rw [hre, hd]
      refine ⟨_, rfl, rfl, rfl, fun h => Option.noConfusion h, fun e2 he2 => ?_⟩
      injection he2 with he2
      subst he2
      exact ⟨rfl, rfl⟩
  · intro d2 hmem hid
    unfold Db.updateDataSourceSyncTime at hmem
    dsimp only at hmem
    rcases List.mem_map.mp hmem with ⟨d0, hd0, rfl⟩
    rcases hb : (d0.id == id) with _ | _
    · simp only [hb, Bool.false_eq_true, if_false] at hid ⊢
      rw [hid] at hb
      simp at hb
    · simp [hb]

/-- C9 witness: the theorem at a one-source store, on a failed and on a
successful attempt. -/
theorem c9_lastSyncAt_stamps_attempt_witness :
    ∃ d1, (MemoryStorage.updateDataSourceSyncTime 7 (some "boom") 4
        { dataSources := [scenarioASource], incidents := [], serviceComponents := [],
          idCounter := 1 }).dataSources.find? (fun x => x.id == 7) = some d1
      ∧ d1.lastSyncAt = some (DateV.clock 4) ∧ d1.updatedAt = some (DateV.clock 4)
      ∧ ((some "boom" : Option String) = none → d1.lastError = none ∧ d1.retryCount = 0)
      ∧ (∀ e, (some "boom" : Option String) = some e →
          d1.lastError = some e ∧ d1.retryCount = scenarioASource.retryCount + 1) :=
  (c9_lastSyncAt_stamps_attempt
    { dataSources := [scenarioASource], incidents := [], serviceComponents := [], idCounter := 1 }
    7 (some "boom") 4).1 scenarioASource (by decide)

/-- C4: the claim fails on the code: the POST /api/sync/all handler invokes
the orchestrator unconditionally, so a manual trigger fired while a
scheduled run is active starts a second concurrent orchestrator execution
(two in flight) instead of being a no-op. -/
theorem c4_manual_trigger_unguarded :
    (Scheduler.tick { inFlight := 0 }).inFlight = 1
    ∧ (Routes.manualSyncAllTrigger (Scheduler.tick { inFlight := 0 })).inFlight = 2 := by
  exact ⟨rfl, rfl⟩

/-- The empty MemoryStorage (constructor state: idCounter starts at 1). -/
def emptyStore : StorageState :=
  { dataSources := [], incidents := [], serviceComponents := [], idCounter := 1 }

/-- First sync's insert record for key (abc, 1). -/
def sampleInsertA : InsertIncident :=
  { externalId := "abc", dataSourceId := 1, systemName := "Example", title := "DB outage",
    description := "first report", status := "investigating", severity := "high", impact := "major",
    startedAt := DateV.parsed "2024-01-01T00:00:00Z", resolvedAt := none,
    updatedAt := DateV.parsed "2024-01-01T00:10:00Z", externalUrl := none,
    affectedServices := [], tags := ["major", "investigating"] }

/-- Second sync's insert record for the same key, with changed fields. -/
def sampleInsertB : InsertIncident :=
  { sampleInsertA with
    description := "fix deployed"
    status := "resolved"
    resolvedAt := some (DateV.parsed "2024-01-02T00:00:00Z")
    updatedAt := DateV.parsed "2024-01-02T00:00:00Z"
    tags := ["major", "resolved"] }

/-- First sync's component insert. -/
def sampleCompA : InsertServiceComponent :=
  { dataSourceId := 1, externalId := "comp-1", name := "API", description := none,
    status := "operational", group := none, position := some 1, showUptime := some true }

/-- Second sync's component insert for the same key. -/
def sampleCompB : InsertServiceComponent :=
  { sampleCompA with name := "API Gateway", status := "degraded_performance" }

/-- C2 counterexample: upserting the same key twice through the in-memory
store keeps one row and restamps updatedAt, but leaves syncedAt at the first
call's clock (3), not the second call's (5) — the claim says updatedAt and
syncedAt are both restamped. -/
theorem c2_upsert_counterexample :
    (MemoryStorage.upsertIncidentByExternalId "abc" 1 sampleInsertB 5
        (MemoryStorage.upsertIncidentByExternalId "abc" 1 sampleInsertA 3 emptyStore)).incidents.map
        (fun i => (i.syncedAt, i.updatedAt))
      = [(DateV.clock 3, DateV.clock 5)]
    ∧ DateV.clock 3 ≠ DateV.clock 5 := by
  exact ⟨by decide, by decide⟩

/-- C2 (amended): a second upsert for an already-present composite key
updates the row in place — exactly one row carries the key afterwards, the
table grows by exactly the first insert, and the second call's fields
supersede the first's with updatedAt restamped; syncedAt is also restamped
by the database store's incident upsert and by the component upserts, while
the in-memory store's incident upsert keeps the row's insert-time syncedAt
(see applyIncidentInsert / mkIncidentRow: the filtered row below has
updatedAt = clock t2 and syncedAt = clock t1). -/
theorem c2_upsert_idempotent_amended (st : StorageState) (e : String) (d t1 t2 : Nat)
    (ins1 ins2 : InsertIncident) (comp1 comp2 : InsertServiceComponent)
    (hk1e : ins1.externalId = e) (hk1d : ins1.dataSourceId = d)
    (hk2e : ins2.externalId = e) (hk2d : ins2.dataSourceId = d)
    (hfresh : ∀ i ∈ st.incidents, (i.externalId == e && i.dataSourceId == d) = false)
    (hids : ∀ i ∈ st.incidents, i.id < st.idCounter)
    (hce : comp2.externalId = comp1.externalId) (hcd : comp2.dataSourceId = comp1.dataSourceId)
    (hcfresh : ∀ x ∈ st.serviceComponents,
      (x.externalId == comp1.externalId && x.dataSourceId == comp1.dataSourceId) = false) :
    ((MemoryStorage.upsertIncidentByExternalId e d ins2 t2
        (MemoryStorage.upsertIncidentByExternalId e d ins1 t1 st)).incidents.filter
        (fun i => i.externalId == e && i.dataSourceId == d)
      = [applyIncidentInsert t2 (mkIncidentRow st.idCounter t1 ins1) ins2])
    ∧ (MemoryStorage.upsertIncidentByExternalId e d ins2 t2
        (MemoryStorage.upsertIncidentByExternalId e d ins1 t1 st)).incidents.length
      = st.incidents.length + 1
    ∧ ((Db.upsertIncidentByExternalId ins2 t2 (Db.upsertIncidentByExternalId ins1 t1 st)).incidents.filter
        (fun i => i.externalId == e && i.dataSourceId == d)
      = [{ applyIncidentInsert t2 (mkIncidentRow st.idCounter t1 ins1) ins2 with syncedAt := DateV.clock t2 }])
    ∧ (Db.upsertIncidentByExternalId ins2 t2 (Db.upsertIncidentByExternalId ins1 t1 st)).incidents.length
      = st.incidents.length + 1
    ∧ ((MemoryStorage.upsertServiceComponent comp2 t2
        (MemoryStorage.upsertServiceComponent comp1 t1 st)).serviceComponents.filter
        (fun x => x.externalId == comp1.externalId && x.dataSourceId == comp1.dataSourceId)
      = [applyComponentInsert t2 (mkComponentRow st.idCounter t1 comp1) comp2]) := by
  subst hk1e
  subst hk1d
  have hfind1 : st.incidents.find?
      (fun i => i.externalId == ins1.externalId && i.dataSourceId == ins1.dataSourceId) = none :=
    List.find?_eq_none.mpr (fun x hx => by simp [hfresh x hx])
  have hpmk : ((mkIncidentRow st.idCounter t1 ins1).externalId == ins1.externalId
      && (mkIncidentRow st.idCounter t1 ins1).dataSourceId == ins1.dataSourceId) = true := by
    simp [mkIncidentRow]
  have hfind2 : (st.incidents ++ [mkIncidentRow st.idCounter t1 ins1]).find?
      (fun i => i.externalId == ins1.externalId && i.dataSourceId == ins1.dataSourceId)
      = some (mkIncidentRow st.idCounter t1 ins1) := by
    rw [find?_append_of_none hfind1]
    simp [List.find?_cons, hpmk]
  have hpref : ∀ x ∈ st.incidents,
      (x.id == (mkIncidentRow st.idCounter t1 ins1).id) = false := by
    intro x hx
    have := hids x hx
    simp only [mkIncidentRow, beq_eq_false_iff_ne]
    omega
  have hst1 : MemoryStorage.upsertIncidentByExternalId ins1.externalId ins1.dataSourceId ins1 t1 st
      = { st with incidents := st.incidents ++ [mkIncidentRow st.idCounter t1 ins1],
                  idCounter := st.idCounter + 1 } := by
    unfold MemoryStorage.upsertIncidentByExternalId
    rw [hfind1]
  have hst2 : MemoryStorage.upsertIncidentByExternalId ins1.externalId ins1.dataSourceId ins2 t2
        (MemoryStorage.upsertIncidentByExternalId ins1.externalId ins1.dataSourceId ins1 t1 st)
      = { st with
          incidents := (st.incidents ++ [applyIncidentInsert t2 (mkIncidentRow st.idCounter t1 ins1) ins2]),
          idCounter := st.idCounter + 1 } := by
    rw [hst1]
    unfold MemoryStorage.upsertIncidentByExternalId
    simp only [hfind2]
    rw [updateFirst_append_left hpref]
    simp [updateFirst]
  have hdb1 : Db.upsertIncidentByExternalId ins1 t1 st
      = { st with incidents := st.incidents ++ [mkIncidentRow st.idCounter t1 ins1],
                  idCounter := st.idCounter + 1 } := by
    unfold Db.upsertIncidentByExternalId
    rw [hfind1]
  have hdb2 : Db.upsertIncidentByExternalId ins2 t2 (Db.upsertIncidentByExternalId ins1 t1 st)
      = { st with
          incidents := (st.incidents ++ [{ applyIncidentInsert t2 (mkIncidentRow st.idCounter t1 ins1) ins2 with syncedAt := DateV.clock t2 }]),
          idCounter := st.idCounter + 1 } := by
    rw [hdb1]
    unfold Db.upsertIncidentByExternalId
    simp only [hk2e, hk2d]
    simp only [hfind2]
    rw [updateFirst_append_left hfresh]
    simp [updateFirst, hpmk]
  have hcfind1 : st.serviceComponents.find?
      (fun x => x.externalId == comp1.externalId && x.dataSourceId == comp1.dataSourceId) = none :=
    List.find?_eq_none.mpr (fun x hx => by simp [hcfresh x hx])
  have hpmkc : ((mkComponentRow st.idCounter t1 comp1).externalId == comp1.externalId
      && (mkComponentRow st.idCounter t1 comp1).dataSourceId == comp1.dataSourceId) = true := by
    simp [mkComponentRow]
  have hcfind2 : (st.serviceComponents ++ [mkComponentRow st.idCounter t1 comp1]).find?
      (fun x => x.externalId == comp1.externalId && x.dataSourceId == comp1.dataSourceId)
      = some (mkComponentRow st.idCounter t1 comp1) := by
    rw [find?_append_of_none hcfind1]
    simp [List.find?_cons, hpmkc]
  have hc1 : MemoryStorage.upsertServiceComponent comp1 t1 st
      = { st with
          serviceComponents := (st.serviceComponents ++ [mkComponentRow st.idCounter t1 comp1]),
          idCounter := st.idCounter + 1 } := by
    unfold MemoryStorage.upsertServiceComponent
    rw [hcfind1]
  have hc2 : MemoryStorage.upsertServiceComponent comp2 t2
        (MemoryStorage.upsertServiceComponent comp1 t1 st)
      = { st with
          serviceComponents := (st.serviceComponents ++ [applyComponentInsert t2 (mkComponentRow st.idCounter t1 comp1) comp2]),
          idCounter := st.idCounter + 1 } := by
    rw [hc1]
    unfold MemoryStorage.upsertServiceComponent
    simp only [hce, hcd]
    simp only [hcfind2]
    rw [updateFirst_append_left hcfresh]
    simp [updateFirst, hpmkc]
  refine ⟨?_, ?_, ?_, ?_, ?_⟩
  · rw [hst2]
    show (st.incidents ++ [applyIncidentInsert t2 (mkIncidentRow st.idCounter t1 ins1) ins2]).filter
        (fun i => i.externalId == ins1.externalId && i.dataSourceId == ins1.dataSourceId) = _
    rw [List.filter_append]
    rw [List.filter_eq_nil_iff.mpr (fun a ha => by simp [hfresh a ha])]
    simp [applyIncidentInsert, hk2e, hk2d]
  · rw [hst2]
    show (st.incidents ++ [applyIncidentInsert t2 (mkIncidentRow st.idCounter t1 ins1) ins2]).length = _
    simp
  · rw [hdb2]
    show (st.incidents ++ [{ applyIncidentInsert t2 (mkIncidentRow st.idCounter t1 ins1) ins2 with syncedAt := DateV.clock t2 }]).filter
        (fun i : Incident => i.externalId == ins1.externalId && i.dataSourceId == ins1.dataSourceId) = _
    rw [List.filter_append]
    rw [List.filter_eq_nil_iff.mpr (fun a ha => by simp [hfresh a ha])]
    simp [applyIncidentInsert, hk2e, hk2d]
  · rw [hdb2]
    show (st.incidents ++ [{ applyIncidentInsert t2 (mkIncidentRow st.idCounter t1 ins1) ins2 with syncedAt := DateV.clock t2 }]).length = _
    simp
  · rw [hc2]
    show (st.serviceComponents ++ [applyComponentInsert t2 (mkComponentRow st.idCounter t1 comp1) comp2]).filter
        (fun x => x.externalId == comp1.externalId && x.dataSourceId == comp1.dataSourceId) = _
    rw [List.filter_append]
    rw [List.filter_eq_nil_iff.mpr (fun a ha => by simp [hcfresh a ha])]
    simp [applyComponentInsert, hce, hcd]

/-- C2 witness: the amended theorem at the sample payloads over the empty
store, every hypothesis discharged by evaluation. -/
theorem c2_upsert_idempotent_amended_witness :
    (MemoryStorage.upsertIncidentByExternalId "abc" 1 sampleInsertB 5
        (MemoryStorage.upsertIncidentByExternalId "abc" 1 sampleInsertA 3 emptyStore)).incidents.filter
        (fun i => i.externalId == "abc" && i.dataSourceId == 1)
      = [applyIncidentInsert 5 (mkIncidentRow 1 3 sampleInsertA) sampleInsertB] :=
  (c2_upsert_idempotent_amended emptyStore "abc" 1 3 5 sampleInsertA sampleInsertB
    sampleCompA sampleCompB (by decide) (by decide) (by decide) (by decide)
    (by simp [emptyStore]) (by simp [emptyStore]) (by decide) (by decide)
    (by simp [emptyStore])).1

/-- C1: fault isolation between sources in one run.  With sources [s1, s2]
both active, s1 failing at any stage (hfail) and s2's adapter, incident
fetch and component fetch succeeding, the run terminates normally and:
s1's record carries the error message and an incremented retryCount, s2's
record carries lastError = none and retryCount = 0, and every incident and
component fetched for s2 is present in the store under its composite key. -/
theorem c1_per_source_fault_isolation
    (w : World) (t : Nat) (s1 s2 : DataSource) (msg : String) (c2 : Connector)
    (incs2 : List InsertIncident) (comps2 : List InsertServiceComponent) (s0 : SyncState)
    (hds : s0.store.dataSources = [s1, s2])
    (h1a : s1.isActive = true) (h2a : s2.isActive = true)
    (hne : s1.id ≠ s2.id)
    (hinv : IncIdsOk s0.store)
    (hfail : (syncDataSource w t s1 s0).2 = Except.error msg)
    (hc : createConnector s2 = Except.ok c2)
    (hi : (fetchIncidents w c2).2 = Except.ok incs2)
    (hcm : (fetchComponents w c2).2 = Except.ok comps2) :
    (syncAllDataSources w t s0).store.dataSources
      = [{ s1 with lastSyncAt := some (DateV.clock t), updatedAt := some (DateV.clock t), lastError := some msg, retryCount := s1.retryCount + 1 },
         { s2 with lastSyncAt := some (DateV.clock t), updatedAt := some (DateV.clock t), lastError := none, retryCount := 0 }]
    ∧ (∀ inc ∈ incs2, hasIncKey inc.externalId s2.id (syncAllDataSources w t s0).store = true)
    ∧ (∀ cp ∈ comps2, hasCompKey cp.externalId cp.dataSourceId (syncAllDataSources w t s0).store = true) := by
  have hrun : syncAllDataSources w t s0 =
      { store := MemoryStorage.updateDataSourceSyncTime s2.id none t
          (upsertComponentBatch t comps2 (upsertIncidentBatch s2.id t incs2
            (MemoryStorage.updateDataSourceSyncTime s1.id (some msg) t (syncDataSource w t s1 s0).1.store))),
        requests := ((syncDataSource w t s1 s0).1.requests ++ (fetchIncidents w c2).1 ++ (fetchComponents w c2).1) } := by
    unfold syncAllDataSources
    rw [hds]
    simp only [List.filter_cons, h1a, h2a, if_true, List.filter_nil, List.foldl_cons,
      List.foldl_nil, syncOneSource, hfail, syncDataSource_success hc hi hcm]
  have hinv1 : IncIdsOk (MemoryStorage.updateDataSourceSyncTime s1.id (some msg) t
      (syncDataSource w t s1 s0).1.store) :=
    incIdsOk_updateDS (syncDataSource_incIdsOk hinv)
  refine ⟨?_, ?_, ?_⟩
  · rw [hrun]
    show (MemoryStorage.updateDataSourceSyncTime s2.id none t
        (upsertComponentBatch t comps2 (upsertIncidentBatch s2.id t incs2
          (MemoryStorage.updateDataSourceSyncTime s1.id (some msg) t
            (syncDataSource w t s1 s0).1.store)))).dataSources = _
    have h12 : (s1.id == s2.id) = false := by
      simp only [beq_eq_false_iff_ne, ne_eq]
      exact hne
    unfold MemoryStorage.updateDataSourceSyncTime
    dsimp only
    rw [dataSources_upsertComponentBatch, dataSources_upsertIncidentBatch]
    dsimp only
    rw [syncDataSource_dataSources, hds]
    simp [updateFirst, h12]
  · intro inc hmem
    rw [hrun]
    show hasIncKey inc.externalId s2.id (MemoryStorage.updateDataSourceSyncTime s2.id none t
        (upsertComponentBatch t comps2 (upsertIncidentBatch s2.id t incs2
          (MemoryStorage.updateDataSourceSyncTime s1.id (some msg) t
            (syncDataSource w t s1 s0).1.store)))) = true
    rw [hasIncKey_updateDS]
    have hcompinc : hasIncKey inc.externalId s2.id
        (upsertComponentBatch t comps2 (upsertIncidentBatch s2.id t incs2
          (MemoryStorage.updateDataSourceSyncTime s1.id (some msg) t
            (syncDataSource w t s1 s0).1.store)))
        = hasIncKey inc.externalId s2.id (upsertIncidentBatch s2.id t incs2
          (MemoryStorage.updateDataSourceSyncTime s1.id (some msg) t
            (syncDataSource w t s1 s0).1.store)) := by
      unfold hasIncKey
      rw [incidents_upsertComponentBatch]
    rw [hcompinc]
    exact hasIncKey_upsertIncidentBatch hinv1 (fetchIncidents_dsid hc hi) inc hmem
  · intro cp hcp
    rw [hrun]
    show hasCompKey cp.externalId cp.dataSourceId (MemoryStorage.updateDataSourceSyncTime s2.id none t
        (upsertComponentBatch t comps2 (upsertIncidentBatch s2.id t incs2
          (MemoryStorage.updateDataSourceSyncTime s1.id (some msg) t
            (syncDataSource w t s1 s0).1.store)))) = true
    rw [hasCompKey_updateDS]
    exact hasCompKey_upsertComponentBatch cp hcp

/-- A second data source whose incidents endpoint the witness world breaks. -/
def c1SourceBad : DataSource :=
  { id := 3, name := "Broken Status", type := "statuspage",
    baseUrl := "https://s1.example.com", isActive := true,
    lastSyncAt := none, lastError := none, retryCount := 1, updatedAt := none }

/-- A raw component served to the healthy source. -/
def c1RawComp : RawComponent :=
  { id := "comp-9", name := "API", description := none, status := "operational",
    group := none, group_id := none, position := some 1, showcase := some true }

/-- A world where c1SourceBad's incidents request fails and every other
endpoint answers normally. -/
def c1World : World :=
  { incidentsAt := fun url =>
      if url = "https://s1.example.com/api/v2/incidents.json" then Except.error "boom"
      else Except.ok [scenarioARaw],
    componentsAt := fun _ => Except.ok [c1RawComp],
    azureStatusAt := fun _ => Except.ok { issues := none, services := none } }

/-- The initial run state for the two-source witness scenario. -/
def c1S0 : SyncState :=
  { store := { dataSources := [c1SourceBad, scenarioASource], incidents := [],
               serviceComponents := [], idCounter := 1 },
    requests := [] }

/-- C1 witness: the theorem at the concrete two-source scenario; the failed
source ends with lastError boom and retryCount 2, the healthy one with
lastError none and retryCount 0. -/
theorem c1_per_source_fault_isolation_witness :
    (syncAllDataSources c1World 2 c1S0).store.dataSources
      = [{ c1SourceBad with lastSyncAt := some (DateV.clock 2), updatedAt := some (DateV.clock 2), lastError := some "boom", retryCount := c1SourceBad.retryCount + 1 },
         { scenarioASource with lastSyncAt := some (DateV.clock 2), updatedAt := some (DateV.clock 2), lastError := none, retryCount := 0 }] :=
  (c1_per_source_fault_isolation c1World 2 c1SourceBad scenarioASource "boom"
    (Connector.statusPage scenarioASource)
    [StatusPageConnector.incidentToInsert 7 scenarioARaw]
    [StatusPageConnector.componentToInsert 7 c1RawComp]
    c1S0 rfl rfl rfl (by decide) ⟨by decide, by decide⟩ rfl rfl rfl rfl).1

/-- C10: processing of one source is not atomic.  With a single active
source whose component fetch fails after its incidents were fetched and
upserted, the run marks the source failed (lastError set, retryCount
incremented) yet every incident of the batch stays persisted — nothing is
rolled back. -/
theorem c10_partial_writes_persist
    (w : World) (t : Nat) (sds : DataSource) (msg : String) (c : Connector)
    (incs : List InsertIncident) (s0 : SyncState)
    (hds : s0.store.dataSources = [sds]) (ha : sds.isActive = true)
    (hinv : IncIdsOk s0.store)
    (hc : createConnector sds = Except.ok c)
    (hi : (fetchIncidents w c).2 = Except.ok incs)
    (hcm : (fetchComponents w c).2 = Except.error msg) :
    (syncAllDataSources w t s0).store.dataSources
      = [{ sds with lastSyncAt := some (DateV.clock t), updatedAt := some (DateV.clock t), lastError := some msg, retryCount := sds.retryCount + 1 }]
    ∧ ∀ inc ∈ incs, hasIncKey inc.externalId sds.id (syncAllDataSources w t s0).store = true := by
  have hrun : syncAllDataSources w t s0 =
      { store := MemoryStorage.updateDataSourceSyncTime sds.id (some msg) t
          (upsertIncidentBatch sds.id t incs s0.store),
        requests := (s0.requests ++ (fetchIncidents w c).1 ++ (fetchComponents w c).1) } := by
    unfold syncAllDataSources
    rw [hds]
    simp only [List.filter_cons, ha, if_true, List.filter_nil, List.foldl_cons,
      List.foldl_nil, syncOneSource, syncDataSource_components_error hc hi hcm]
  constructor
  · rw [hrun]
    show (MemoryStorage.updateDataSourceSyncTime sds.id (some msg) t
        (upsertIncidentBatch sds.id t incs s0.store)).dataSources = _
    unfold MemoryStorage.updateDataSourceSyncTime
    dsimp only
    rw [dataSources_upsertIncidentBatch, hds]
    simp [updateFirst]
  · intro inc hmem
    rw [hrun]
    show hasIncKey inc.externalId sds.id (MemoryStorage.updateDataSourceSyncTime sds.id (some msg) t
        (upsertIncidentBatch sds.id t incs s0.store)) = true
    rw [hasIncKey_updateDS]
    exact hasIncKey_upsertIncidentBatch hinv (fetchIncidents_dsid hc hi) inc hmem

/-- A world for the C10 witness: incidents are served, components fail. -/
def c10World : World :=
  { incidentsAt := fun _ => Except.ok [scenarioARaw],
    componentsAt := fun _ => Except.error "comp-fail",
    azureStatusAt := fun _ => Except.ok { issues := none, services := none } }

/-- The initial run state for the C10 witness scenario. -/
def c10S0 : SyncState :=
  { store := { dataSources := [scenarioASource], incidents := [],
               serviceComponents := [], idCounter := 1 },
    requests := [] }

/-- C10 witness: the concrete single-source run keeps the fetched incident
row while the source is marked failed. -/
theorem c10_partial_writes_persist_witness :
    (syncAllDataSources c10World 4 c10S0).store.dataSources
      = [{ scenarioASource with lastSyncAt := some (DateV.clock 4), updatedAt := some (DateV.clock 4), lastError := some "comp-fail", retryCount := scenarioASource.retryCount + 1 }]
    ∧ hasIncKey (StatusPageConnector.incidentToInsert 7 scenarioARaw).externalId 7
        (syncAllDataSources c10World 4 c10S0).store = true :=
  ⟨(c10_partial_writes_persist c10World 4 scenarioASource "comp-fail"
      (Connector.statusPage scenarioASource) [StatusPageConnector.incidentToInsert 7 scenarioARaw]
      c10S0 rfl rfl ⟨by decide, by decide⟩ rfl rfl rfl).1,
   (c10_partial_writes_persist c10World 4 scenarioASource "comp-fail"
      (Connector.statusPage scenarioASource) [StatusPageConnector.incidentToInsert 7 scenarioARaw]
      c10S0 rfl rfl ⟨by decide, by decide⟩ rfl rfl rfl).2
      (StatusPageConnector.incidentToInsert 7 scenarioARaw) (by decide)⟩

/-- C6: an unsupported connector type fails in the factory with a descriptive
message naming the type, before any HTTP request (the run's request log is
exactly the healthy source's two fetches, every entry carrying the healthy
source's id), and the orchestrator treats it as a per-source failure: the bad
source's record gets the message and an incremented retryCount while the
remaining active source is synced normally. -/
theorem c6_unsupported_type_isolated
    (w : World) (t : Nat) (s1 s2 : DataSource) (c2 : Connector)
    (incs2 : List InsertIncident) (comps2 : List InsertServiceComponent) (s0 : SyncState)
    (hds : s0.store.dataSources = [s1, s2])
    (h1a : s1.isActive = true) (h2a : s2.isActive = true)
    (hne : s1.id ≠ s2.id)
    (hinv : IncIdsOk s0.store)
    (hbad1 : s1.type ≠ "statuspage") (hbad2 : s1.type ≠ "github-status")
    (hbad3 : s1.type ≠ "azure-status")
    (hc : createConnector s2 = Except.ok c2)
    (hi : (fetchIncidents w c2).2 = Except.ok incs2)
    (hcm : (fetchComponents w c2).2 = Except.ok comps2) :
    createConnector s1 = Except.error ("Unsupported connector type: " ++ s1.type)
    ∧ (syncAllDataSources w t s0).store.dataSources
      = [{ s1 with lastSyncAt := some (DateV.clock t), updatedAt := some (DateV.clock t), lastError := some ("Unsupported connector type: " ++ s1.type), retryCount := s1.retryCount + 1 },
         { s2 with lastSyncAt := some (DateV.clock t), updatedAt := some (DateV.clock t), lastError := none, retryCount := 0 }]
    ∧ (syncAllDataSources w t s0).requests
      = s0.requests ++ (fetchIncidents w c2).1 ++ (fetchComponents w c2).1
    ∧ (∀ q ∈ (syncAllDataSources w t s0).requests, q ∈ s0.requests ∨ q.1 = s2.id)
    ∧ (∀ inc ∈ incs2, hasIncKey inc.externalId s2.id (syncAllDataSources w t s0).store = true) := by
  have hce : createConnector s1 = Except.error ("Unsupported connector type: " ++ s1.type) := by
    unfold createConnector
    rw [if_neg hbad1, if_neg hbad2, if_neg hbad3]
  have hrun : syncAllDataSources w t s0 =
      { store := MemoryStorage.updateDataSourceSyncTime s2.id none t
          (upsertComponentBatch t comps2 (upsertIncidentBatch s2.id t incs2
            (MemoryStorage.updateDataSourceSyncTime s1.id
              (some ("Unsupported connector type: " ++ s1.type)) t s0.store))),
        requests := (s0.requests ++ (fetchIncidents w c2).1 ++ (fetchComponents w c2).1) } := by
    unfold syncAllDataSources
    rw [hds]
    simp only [List.filter_cons, h1a, h2a, if_true, List.filter_nil, List.foldl_cons,
      List.foldl_nil, syncOneSource, syncDataSource_factory_error hce,
      syncDataSource_success hc hi hcm]
  have hinv1 : IncIdsOk (MemoryStorage.updateDataSourceSyncTime s1.id
      (some ("Unsupported connector type: " ++ s1.type)) t s0.store) :=
    incIdsOk_updateDS hinv
  refine ⟨hce, ?_, ?_, ?_, ?_⟩
  · rw [hrun]
    show (MemoryStorage.updateDataSourceSyncTime s2.id none t
        (upsertComponentBatch t comps2 (upsertIncidentBatch s2.id t incs2
          (MemoryStorage.updateDataSourceSyncTime s1.id
            (some ("Unsupported connector type: " ++ s1.type)) t s0.store)))).dataSources = _
    have h12 : (s1.id == s2.id) = false := by
      simp only [beq_eq_false_iff_ne, ne_eq]
      exact hne
    unfold MemoryStorage.updateDataSourceSyncTime
    dsimp only
    rw [dataSources_upsertComponentBatch, dataSources_upsertIncidentBatch]
    dsimp only
    rw [hds]
    simp [updateFirst, h12]
  · rw [hrun]
  · rw [hrun]
    intro q hq
    show q ∈ s0.requests ∨ q.1 = s2.id
    rcases List.mem_append.mp hq with hq1 | hq2
    · rcases List.mem_append.mp hq1 with hq3 | hq4
      · exact Or.inl hq3
      · exact Or.inr (fetchIncidents_requests_id hc q hq4)
    · exact Or.inr (fetchComponents_requests_id hc q hq2)
  · intro inc hmem
    rw [hrun]
    show hasIncKey inc.externalId s2.id (MemoryStorage.updateDataSourceSyncTime s2.id none t
        (upsertComponentBatch t comps2 (upsertIncidentBatch s2.id t incs2
          (MemoryStorage.updateDataSourceSyncTime s1.id
            (some ("Unsupported connector type: " ++ s1.type)) t s0.store)))) = true
    rw [hasIncKey_updateDS]
    have hcompinc : hasIncKey inc.externalId s2.id
        (upsertComponentBatch t comps2 (upsertIncidentBatch s2.id t incs2
          (MemoryStorage.updateDataSourceSyncTime s1.id
            (some ("Unsupported connector type: " ++ s1.type)) t s0.store)))
        = hasIncKey inc.externalId s2.id (upsertIncidentBatch s2.id t incs2
          (MemoryStorage.updateDataSourceSyncTime s1.id
            (some ("Unsupported connector type: " ++ s1.type)) t s0.store)) := by
      unfold hasIncKey
      rw [incidents_upsertComponentBatch]
    rw [hcompinc]
    exact hasIncKey_upsertIncidentBatch hinv1 (fetchIncidents_dsid hc hi) inc hmem

/-- A data source with an unrecognized vendor type. -/
def c6SourceBad : DataSource :=
  { id := 9, name := "Mystery", type := "unknown-vendor",
    baseUrl := "https://mystery.example.com", isActive := true,
    lastSyncAt := none, lastError := none, retryCount := 0, updatedAt := none }

/-- The initial run state for the C6 witness scenario. -/
def c6S0 : SyncState :=
  { store := { dataSources := [c6SourceBad, scenarioASource], incidents := [],
               serviceComponents := [], idCounter := 1 },
    requests := [] }

/-- C6 witness: spec Scenario B at type unknown-vendor, next to a healthy
statuspage source. -/
theorem c6_unsupported_type_isolated_witness :
    createConnector c6SourceBad
      = Except.error ("Unsupported connector type: " ++ c6SourceBad.type)
    ∧ (syncAllDataSources scenarioAWorld 6 c6S0).store.dataSources
      = [{ c6SourceBad with lastSyncAt := some (DateV.clock 6), updatedAt := some (DateV.clock 6), lastError := some ("Unsupported connector type: " ++ c6SourceBad.type), retryCount := c6SourceBad.retryCount + 1 },
         { scenarioASource with lastSyncAt := some (DateV.clock 6), updatedAt := some (DateV.clock 6), lastError := none, retryCount := 0 }] :=
  ⟨(c6_unsupported_type_isolated scenarioAWorld 6 c6SourceBad scenarioASource
      (Connector.statusPage scenarioASource)
      [StatusPageConnector.incidentToInsert 7 scenarioARaw] [] c6S0
      rfl rfl rfl (by decide) ⟨by decide, by decide⟩ (by decide) (by decide) (by decide)
      rfl rfl rfl).1,
   (c6_unsupported_type_isolated scenarioAWorld 6 c6SourceBad scenarioASource
      (Connector.statusPage scenarioASource)
      [StatusPageConnector.incidentToInsert 7 scenarioARaw] [] c6S0
      rfl rfl rfl (by decide) ⟨by decide, by decide⟩ (by decide) (by decide) (by decide)
      rfl rfl rfl).2.1⟩

/-! ## Provenance lemmas for the frame claim -/

theorem upsertInc_prov {st : StorageState} {e : String} {d t : Nat} {ins : InsertIncident} :
    ∀ r ∈ (MemoryStorage.upsertIncidentByExternalId e d ins t st).incidents,
      r ∈ st.incidents ∨ r.dataSourceId = ins.dataSourceId := by
  unfold MemoryStorage.upsertIncidentByExternalId
  split
  · dsimp only
    intro r hr
    rcases mem_of_mem_updateFirst hr with hmem | ⟨b, hb, rfl⟩
    · exact Or.inl hmem
    · exact Or.inr rfl
  · dsimp only
    intro r hr
    rcases List.mem_append.mp hr with hmem | hmem
    · exact Or.inl hmem
    · simp only [List.mem_singleton] at hmem
      subst hmem
      exact Or.inr rfl

theorem upsertIncidentBatch_prov {incs : List InsertIncident} {st : StorageState} {dsid t : Nat}
    (hkey : ∀ j ∈ incs, j.dataSourceId = dsid) :
    ∀ r ∈ (upsertIncidentBatch dsid t incs st).incidents,
      r ∈ st.incidents ∨ r.dataSourceId = dsid := by
  induction incs generalizing st with
  | nil => exact fun r hr => Or.inl hr
  | cons j rest ih =>
      intro r hr
      have hr2 : r ∈ (upsertIncidentBatch dsid t rest
          (MemoryStorage.upsertIncidentByExternalId j.externalId dsid j t st)).incidents := hr
      rcases ih (fun k hk => hkey k (List.mem_cons_of_mem j hk)) r hr2 with hmem | hid
      · rcases upsertInc_prov r hmem with hmem2 | hid2
        · exact Or.inl hmem2
        · exact Or.inr (by rw [hid2]; exact hkey j (List.mem_cons_self j rest))
      · exact Or.inr hid

theorem upsertComp_prov {st : StorageState} {t : Nat} {c : InsertServiceComponent} :
    ∀ r ∈ (MemoryStorage.upsertServiceComponent c t st).serviceComponents,
      r ∈ st.serviceComponents ∨ r.dataSourceId = c.dataSourceId := by
  unfold MemoryStorage.upsertServiceComponent
  split
  · dsimp only
    intro r hr
    rcases mem_of_mem_updateFirst hr with hmem | ⟨b, hb, rfl⟩
    · exact Or.inl hmem
    · exact Or.inr rfl
  · dsimp only
    intro r hr
    rcases List.mem_append.mp hr with hmem | hmem
    · exact Or.inl hmem
    · simp only [List.mem_singleton] at hmem
      subst hmem
      exact Or.inr rfl

theorem upsertComponentBatch_prov {comps : List InsertServiceComponent} {st : StorageState}
    {dsid t : Nat} (hkey : ∀ j ∈ comps, j.dataSourceId = dsid) :
    ∀ r ∈ (upsertComponentBatch t comps st).serviceComponents,
      r ∈ st.serviceComponents ∨ r.dataSourceId = dsid := by
  induction comps generalizing st with
  | nil => exact fun r hr => Or.inl hr
  | cons j rest ih =>
      intro r hr
      have hr2 : r ∈ (upsertComponentBatch t rest
          (MemoryStorage.upsertServiceComponent j t st)).serviceComponents := hr
      rcases ih (fun k hk => hkey k (List.mem_cons_of_mem j hk)) r hr2 with hmem | hid
      · rcases upsertComp_prov r hmem with hmem2 | hid2
        · exact Or.inl hmem2
        · exact Or.inr (by rw [hid2]; exact hkey j (List.mem_cons_self j rest))
      · exact Or.inr hid

theorem map_id_updateDS {st : StorageState} {id t : Nat} {err : Option String} :
    (MemoryStorage.updateDataSourceSyncTime id err t st).dataSources.map DataSource.id
      = st.dataSources.map DataSource.id := by
  unfold MemoryStorage.updateDataSourceSyncTime
  dsimp only
  exact map_updateFirst (fun a => by cases err <;> rfl)

theorem mem_updateDS_of_ne {st : StorageState} {id t : Nat} {err : Option String}
    {x : DataSource} (hx : x ∈ st.dataSources) (hne : (x.id == id) = false) :
    x ∈ (MemoryStorage.updateDataSourceSyncTime id err t st).dataSources := by
  unfold MemoryStorage.updateDataSourceSyncTime
  dsimp only
  exact mem_updateFirst_of_false hx hne

theorem syncDataSource_requests_prov {w : World} {t : Nat} {a : DataSource} {acc : SyncState} :
    ∀ q ∈ (syncDataSource w t a acc).1.requests, q ∈ acc.requests ∨ q.1 = a.id := by
  rcases hcc : createConnector a with e | c
  · rw [syncDataSource_factory_error hcc]
    exact fun q hq => Or.inl hq
  · rcases hii : (fetchIncidents w c).2 with e | incs
    · rw [syncDataSource_incidents_error hcc hii]
      intro q hq
      rcases List.mem_append.mp hq with h1 | h2
      · exact Or.inl h1
      · exact Or.inr (fetchIncidents_requests_id hcc q h2)
    · rcases hmm : (fetchComponents w c).2 with e | comps
      · rw [syncDataSource_components_error hcc hii hmm]
        intro q hq
        rcases List.mem_append.mp hq with h1 | h2
        · rcases List.mem_append.mp h1 with h3 | h4
          · exact Or.inl h3
          · exact Or.inr (fetchIncidents_requests_id hcc q h4)
        · exact Or.inr (fetchComponents_requests_id hcc q h2)
      · rw [syncDataSource_success hcc hii hmm]
        intro q hq
        rcases List.mem_append.mp hq with h1 | h2
        · rcases List.mem_append.mp h1 with h3 | h4
          · exact Or.inl h3
          · exact Or.inr (fetchIncidents_requests_id hcc q h4)
        · exact Or.inr (fetchComponents_requests_id hcc q h2)

theorem syncDataSource_incidents_prov {w : World} {t : Nat} {a : DataSource} {acc : SyncState} :
    ∀ i ∈ (syncDataSource w t a acc).1.store.incidents,
      i ∈ acc.store.incidents ∨ i.dataSourceId = a.id := by
  rcases hcc : createConnector a with e | c
  · rw [syncDataSource_factory_error hcc]
    exact fun i hi => Or.inl hi
  · rcases hii : (fetchIncidents w c).2 with e | incs
    · rw [syncDataSource_incidents_error hcc hii]
      exact fun i hi => Or.inl hi
    · rcases hmm : (fetchComponents w c).2 with e | comps
      · rw [syncDataSource_components_error hcc hii hmm]
        exact upsertIncidentBatch_prov (fetchIncidents_dsid hcc hii)
      · rw [syncDataSource_success hcc hii hmm]
        intro i hi
        have hi2 : i ∈ (upsertComponentBatch t comps
            (upsertIncidentBatch a.id t incs acc.store)).incidents := hi
        rw [incidents_upsertComponentBatch] at hi2
        exact upsertIncidentBatch_prov (fetchIncidents_dsid hcc hii) i hi2

theorem syncDataSource_components_prov {w : World} {t : Nat} {a : DataSource} {acc : SyncState} :
    ∀ cp ∈ (syncDataSource w t a acc).1.store.serviceComponents,
      cp ∈ acc.store.serviceComponents ∨ cp.dataSourceId = a.id := by
  rcases hcc : createConnector a with e | c
  · rw [syncDataSource_factory_error hcc]
    exact fun cp h => Or.inl h
  · rcases hii : (fetchIncidents w c).2 with e | incs
    · rw [syncDataSource_incidents_error hcc hii]
      exact fun cp h => Or.inl h
    · rcases hmm : (fetchComponents w c).2 with e | comps
      · rw [syncDataSource_components_error hcc hii hmm]
        intro cp h
        have h2 : cp ∈ (upsertIncidentBatch a.id t incs acc.store).serviceComponents := h
        rw [serviceComponents_upsertIncidentBatch] at h2
        exact Or.inl h2
      · rw [syncDataSource_success hcc hii hmm]
        intro cp h
        have h2 : cp ∈ (upsertComponentBatch t comps
            (upsertIncidentBatch a.id t incs acc.store)).serviceComponents := h
        rcases upsertComponentBatch_prov (fetchComponents_dsid hcc hmm) cp h2 with h3 | h3
        · rw [serviceComponents_upsertIncidentBatch] at h3
          exact Or.inl h3
        · exact Or.inr h3

theorem syncOneSource_requests {w : World} {t : Nat} {acc : SyncState} {a : DataSource} :
    (syncOneSource w t acc a).requests = (syncDataSource w t a acc).1.requests := by
  unfold syncOneSource
  rcases hq : syncDataSource w t a acc with ⟨s1, r⟩
  rcases r with e | u <;> rfl

theorem syncOneSource_incidents {w : World} {t : Nat} {acc : SyncState} {a : DataSource} :
    (syncOneSource w t acc a).store.incidents = (syncDataSource w t a acc).1.store.incidents := by
  unfold syncOneSource
  rcases hq : syncDataSource w t a acc with ⟨s1, r⟩
  rcases r with e | u <;> rfl

theorem syncOneSource_serviceComponents {w : World} {t : Nat} {acc : SyncState} {a : DataSource} :
    (syncOneSource w t acc a).store.serviceComponents
      = (syncDataSource w t a acc).1.store.serviceComponents := by
  unfold syncOneSource
  rcases hq : syncDataSource w t a acc with ⟨s1, r⟩
  rcases r with e | u <;> rfl

theorem map_id_syncOneSource {w : World} {t : Nat} {acc : SyncState} {a : DataSource} :
    (syncOneSource w t acc a).store.dataSources.map DataSource.id
      = acc.store.dataSources.map DataSource.id := by
  unfold syncOneSource
  rcases hq : syncDataSource w t a acc with ⟨s1, r⟩
  have hds1 : s1.store.dataSources = acc.store.dataSources := by
    have h := @syncDataSource_dataSources w t a acc
    rw [hq] at h
    exact h
  rcases r with e | u
  · show (MemoryStorage.updateDataSourceSyncTime a.id (some e) t
        s1.store).dataSources.map DataSource.id = _
    rw [map_id_updateDS, hds1]
  · show (MemoryStorage.updateDataSourceSyncTime a.id none t
        s1.store).dataSources.map DataSource.id = _
    rw [map_id_updateDS, hds1]

theorem mem_dataSources_syncOneSource {w : World} {t : Nat} {acc : SyncState} {a : DataSource}
    {x : DataSource} (hx : x ∈ acc.store.dataSources) (hne : (x.id == a.id) = false) :
    x ∈ (syncOneSource w t acc a).store.dataSources := by
  unfold syncOneSource
  rcases hq : syncDataSource w t a acc with ⟨s1, r⟩
  have hds1 : s1.store.dataSources = acc.store.dataSources := by
    have h := @syncDataSource_dataSources w t a acc
    rw [hq] at h
    exact h
  rcases r with e | u
  · show x ∈ (MemoryStorage.updateDataSourceSyncTime a.id (some e) t s1.store).dataSources
    exact mem_updateDS_of_ne (by rw [hds1]; exact hx) hne
  · show x ∈ (MemoryStorage.updateDataSourceSyncTime a.id none t s1.store).dataSources
    exact mem_updateDS_of_ne (by rw [hds1]; exact hx) hne

theorem syncOneSource_requests_prov {w : World} {t : Nat} {acc : SyncState} {a : DataSource} :
    ∀ q ∈ (syncOneSource w t acc a).requests, q ∈ acc.requests ∨ q.1 = a.id := by
  intro q hq
  rw [syncOneSource_requests] at hq
  exact syncDataSource_requests_prov q hq

theorem syncOneSource_incidents_prov {w : World} {t : Nat} {acc : SyncState} {a : DataSource} :
    ∀ i ∈ (syncOneSource w t acc a).store.incidents,
      i ∈ acc.store.incidents ∨ i.dataSourceId = a.id := by
  intro i hi
  rw [syncOneSource_incidents] at hi
  exact syncDataSource_incidents_prov i hi

theorem syncOneSource_components_prov {w : World} {t : Nat} {acc : SyncState} {a : DataSource} :
    ∀ cp ∈ (syncOneSource w t acc a).store.serviceComponents,
      cp ∈ acc.store.serviceComponents ∨ cp.dataSourceId = a.id := by
  intro cp h
  rw [syncOneSource_serviceComponents] at h
  exact syncDataSource_components_prov cp h

/-- C8: the run touches only active sources.  Any source with isActive =
false is still present, unchanged, in the data source table afterwards (the
table's ids are untouched), every request logged by the run belongs to an
active source, and every incident or component row that is new or changed
belongs to an active source. -/
theorem c8_inactive_sources_untouched
    (w : World) (t : Nat) (s0 : SyncState) (d : DataSource)
    (hnd : (s0.store.dataSources.map DataSource.id).Nodup)
    (hd : d ∈ s0.store.dataSources) (hinact : d.isActive = false) :
    d ∈ (syncAllDataSources w t s0).store.dataSources
    ∧ (syncAllDataSources w t s0).store.dataSources.map DataSource.id
      = s0.store.dataSources.map DataSource.id
    ∧ (∀ q ∈ (syncAllDataSources w t s0).requests,
        q ∈ s0.requests ∨ ∃ a ∈ s0.store.dataSources, a.isActive = true ∧ q.1 = a.id)
    ∧ (∀ i ∈ (syncAllDataSources w t s0).store.incidents,
        i ∈ s0.store.incidents ∨ ∃ a ∈ s0.store.dataSources, a.isActive = true ∧ i.dataSourceId = a.id)
    ∧ (∀ cp ∈ (syncAllDataSources w t s0).store.serviceComponents,
        cp ∈ s0.store.serviceComponents
          ∨ ∃ a ∈ s0.store.dataSources, a.isActive = true ∧ cp.dataSourceId = a.id) := by
  have hstep : ∀ (l : List DataSource), (∀ a ∈ l, a ∈ s0.store.dataSources ∧ a.isActive = true) →
      ∀ (acc : SyncState),
      (d ∈ acc.store.dataSources
        ∧ acc.store.dataSources.map DataSource.id = s0.store.dataSources.map DataSource.id
        ∧ (∀ q ∈ acc.requests, q ∈ s0.requests ∨ ∃ a ∈ s0.store.dataSources, a.isActive = true ∧ q.1 = a.id)
        ∧ (∀ i ∈ acc.store.incidents, i ∈ s0.store.incidents ∨ ∃ a ∈ s0.store.dataSources, a.isActive = true ∧ i.dataSourceId = a.id)
        ∧ (∀ cp ∈ acc.store.serviceComponents, cp ∈ s0.store.serviceComponents ∨ ∃ a ∈ s0.store.dataSources, a.isActive = true ∧ cp.dataSourceId = a.id)) →
      (d ∈ (l.foldl (syncOneSource w t) acc).store.dataSources
        ∧ (l.foldl (syncOneSource w t) acc).store.dataSources.map DataSource.id = s0.store.dataSources.map DataSource.id
        ∧ (∀ q ∈ (l.foldl (syncOneSource w t) acc).requests, q ∈ s0.requests ∨ ∃ a ∈ s0.store.dataSources, a.isActive = true ∧ q.1 = a.id)
        ∧ (∀ i ∈ (l.foldl (syncOneSource w t) acc).store.incidents, i ∈ s0.store.incidents ∨ ∃ a ∈ s0.store.dataSources, a.isActive = true ∧ i.dataSourceId = a.id)
        ∧ (∀ cp ∈ (l.foldl (syncOneSource w t) acc).store.serviceComponents, cp ∈ s0.store.serviceComponents ∨ ∃ a ∈ s0.store.dataSources, a.isActive = true ∧ cp.dataSourceId = a.id)) := by
    intro l
    induction l with
    | nil => exact fun _ acc hP => hP
    | cons a rest ih =>
        intro hl acc hP
        obtain ⟨hP1, hP2, hP3, hP4, hP5⟩ := hP
        have ha := hl a (List.mem_cons_self a rest)
        have hane : (d.id == a.id) = false := by
          rw [beq_eq_false_iff_ne]
          intro hidd
          have hda : d = a := List.inj_on_of_nodup_map hnd hd ha.1 hidd
          rw [hda, ha.2] at hinact
          exact Bool.noConfusion hinact
        rw [List.foldl_cons]
        refine ih (fun b hb => hl b (List.mem_cons_of_mem a hb)) (syncOneSource w t acc a)
          ⟨?_, ?_, ?_, ?_, ?_⟩
        · exact mem_dataSources_syncOneSource hP1 hane
        · rw [map_id_syncOneSource]
          exact hP2
        · intro q hq
          rcases syncOneSource_requests_prov q hq with h | h
          · exact hP3 q h
          · exact Or.inr ⟨a, ha.1, ha.2, h⟩
        · intro i hi
          rcases syncOneSource_incidents_prov i hi with h | h
          · exact hP4 i h
          · exact Or.inr ⟨a, ha.1, ha.2, h⟩
        · intro cp hcp
          rcases syncOneSource_components_prov cp hcp with h | h
          · exact hP5 cp h
          · exact Or.inr ⟨a, ha.1, ha.2, h⟩
  have hact : ∀ a ∈ s0.store.dataSources.filter (fun ds => ds.isActive),
      a ∈ s0.store.dataSources ∧ a.isActive = true := by
    intro a ha
    have h := List.mem_filter.mp ha
    exact ⟨h.1, h.2⟩
  exact hstep (s0.store.dataSources.filter (fun ds => ds.isActive)) hact s0
    ⟨hd, rfl, fun q hq => Or.inl hq, fun i hi => Or.inl hi, fun cp hcp => Or.inl hcp⟩

/-- An inactive data source with pre-existing sync bookkeeping. -/
def c8SourceOff : DataSource :=
  { id := 5, name := "Dormant", type := "statuspage",
    baseUrl := "https://off.example.com", isActive := false,
    lastSyncAt := none, lastError := some "old failure", retryCount := 3, updatedAt := none }

/-- The initial run state for the C8 witness scenario. -/
def c8S0 : SyncState :=
  { store := { dataSources := [c8SourceOff, scenarioASource], incidents := [],
               serviceComponents := [], idCounter := 1 },
    requests := [] }

/-- C8 witness: after a run next to an active source, the inactive source's
record — lastError and retryCount included — is still in the table untouched. -/
theorem c8_inactive_sources_untouched_witness :
    c8SourceOff ∈ (syncAllDataSources scenarioAWorld 9 c8S0).store.dataSources
    ∧ (syncAllDataSources scenarioAWorld 9 c8S0).store.dataSources.map DataSource.id
      = c8S0.store.dataSources.map DataSource.id :=
  ⟨(c8_inactive_sources_untouched scenarioAWorld 9 c8S0 c8SourceOff
      (by decide) (by decide) (by decide)).1,
   (c8_inactive_sources_untouched scenarioAWorld 9 c8S0 c8SourceOff
      (by decide) (by decide) (by decide)).2.1⟩

end QueryLinker
